import Mathlib

/-
Verification of the numerical core of scan_solver_3.py.

The 1D root finders and the boundary tracer are generic in the scalar
function they solve; they are embedded here over exact rational
arithmetic (idealised, overflow-free numbers), so every solver run on a
concrete input can be evaluated inside Lean.  Loops that Python runs
without a bound are given an explicit fuel parameter; the distinguished
result NRes.fuelOut marks fuel exhaustion (a modelling artefact, never a
behaviour of the program), NRes.zeroDiv models Python raising
ZeroDivisionError in the Newton update, NRes.noRoot models the Python
return value None, and NRes.found x models returning the number x.
The bisection loop provably needs at most bisectFuel steps, so
find_root_between is a total function as in the source.

The inequality model (S, F, M and the fov/altitude scaling) is embedded
over the real numbers since it uses square roots.
-/

namespace ScanSolver

/-- TOLERANCE = 1e-5 from the source. -/
def TOLERANCE : ℚ := 1/100000

/-- FOV_MAX = 20 from the source (fov capped in SCANSat to 20 degrees). -/
def FOV_MAX : ℝ := 20

/-- Side marker BOTTOM = 0 from the source. -/
def BOTTOM : ℤ := 0

/-- Side marker TOP = 1 from the source. -/
def TOP : ℤ := 1

/-- Result of a solver run.  fuelOut is the fuel-exhaustion artefact of the
embedding; zeroDiv models a ZeroDivisionError raised by the Newton update
y/dy; noRoot models Python returning None; found x models returning x. -/
inductive NRes where
  | fuelOut : NRes
  | zeroDiv : NRes
  | noRoot : NRes
  | found (x : ℚ) : NRes
deriving DecidableEq

/-- Post-loop code of find_root_between: if y0 and y1 still share a sign no
root was found and the endpoint with the smaller absolute value is
returned, otherwise the midpoint of the final bracket. -/
def bisectExit (x0 x1 y0 y1 : ℚ) : ℚ :=
  if 0 < y0 * y1 then (if |y0| < |y1| then x0 else x1) else (x0 + x1) / 2

/-- The bisection loop of find_root_between.  State: bracket x0, x1 with the
cached values y0 = fx x0, y1 = fx x1.  The loop runs while the bracket is
wider than TOLERANCE; each pass evaluates fx at the midpoint and replaces
the endpoint with the matching sign.  The fuel only limits how many passes
the embedding will take (none = fuel ran out with the guard still true);
bisectFuel below is always enough. -/
def bisectGo (fx : ℚ → ℚ) : ℕ → ℚ → ℚ → ℚ → ℚ → Option ℚ
  | 0, x0, x1, y0, y1 =>
      if TOLERANCE < |x0 - x1| then none else some (bisectExit x0 x1 y0 y1)
  | n+1, x0, x1, y0, y1 =>
      if TOLERANCE < |x0 - x1| then
        if fx ((x0 + x1) / 2) < 0 then
          bisectGo fx n ((x0 + x1) / 2) x1 (fx ((x0 + x1) / 2)) y1
        else
          bisectGo fx n x0 ((x0 + x1) / 2) y0 (fx ((x0 + x1) / 2))
      else some (bisectExit x0 x1 y0 y1)

/-- Enough fuel for the bisection loop on the bracket x0, x1: the width
halves each pass, and 2 ^ ceil(width / TOLERANCE) exceeds width / TOLERANCE. -/
def bisectFuel (x0 x1 : ℚ) : ℕ := (⌈|x0 - x1| / TOLERANCE⌉).toNat

/-- find_root_between from the source.  Computes y0 = fx x0 and y1 = fx x1,
swaps the bracket when y1 < 0 < y0, and runs the bisection loop; the
Option.getD default is never reached because bisectFuel suffices
(lemma bisectGo_isSome). -/
def find_root_between (fx : ℚ → ℚ) (x0 x1 : ℚ) : ℚ :=
  if fx x1 < 0 ∧ 0 < fx x0 then
    (bisectGo fx (bisectFuel x1 x0) x1 x0 (fx x1) (fx x0)).getD ((x1 + x0) / 2)
  else
    (bisectGo fx (bisectFuel x0 x1) x0 x1 (fx x0) (fx x1)).getD ((x0 + x1) / 2)

/-- The WARN diagnostic of find_root_between ("no guaranteed root between
x0 and x1"): fires when the bracket was not swapped and y0, y1 share a
sign (VERBOSE is True in the source). -/
def find_root_between_warn (fx : ℚ → ℚ) (x0 x1 : ℚ) : Bool :=
  !(decide (fx x1 < 0 ∧ 0 < fx x0)) && decide (0 < fx x0 * fx x1)

/-- Step-size clamp of find_root_near: a raw Newton step r is limited to
maxDx in absolute value, keeping its sign. -/
def newtonClamp (maxDx r : ℚ) : ℚ :=
  if maxDx < |r| then (if 0 < r then maxDx else -maxDx) else r

/-- Direction choice of find_root_near: the requested direction, reversed
once the function value has flipped sign relative to its value y0 at the
starting point. -/
def newtonDir (y0 y : ℚ) (direction : ℤ) : ℤ :=
  if 0 < y0 * y then direction else -direction

/-- One Newton update of find_root_near: clamp the raw step y/dy, then force
its sign to match the (possibly reversed) search direction. -/
def newtonStep (fx dfdx : ℚ → ℚ) (y0 : ℚ) (direction : ℤ) (maxDx x : ℚ) : ℚ :=
  x +
    (if newtonClamp maxDx (fx x / dfdx x) * ((newtonDir y0 (fx x) direction : ℤ) : ℚ) < 0
     then -newtonClamp maxDx (fx x / dfdx x)
     else newtonClamp maxDx (fx x / dfdx x))

/-- The loop of find_root_near.  Python enters the loop unconditionally
(the previous iterate starts at infinity), so each pass first checks for a
zero derivative (ZeroDivisionError), then takes a Newton step, returns
None as soon as the iterate leaves [0,1], and otherwise loops until two
successive iterates are within TOLERANCE. -/
def findRootNearGo (fx dfdx : ℚ → ℚ) (y0 : ℚ) (direction : ℤ) (maxDx : ℚ) :
    ℕ → ℚ → NRes
  | 0, _ => .fuelOut
  | n+1, x =>
      if dfdx x = 0 then .zeroDiv
      else if newtonStep fx dfdx y0 direction maxDx x < 0 ∨
              1 < newtonStep fx dfdx y0 direction maxDx x then .noRoot
      else if TOLERANCE < |x - newtonStep fx dfdx y0 direction maxDx x| then
        findRootNearGo fx dfdx y0 direction maxDx n
          (newtonStep fx dfdx y0 direction maxDx x)
      else .found (newtonStep fx dfdx y0 direction maxDx x)

/-- find_root_near from the source: record y0 = fx x0 and run the Newton
loop from x0 (max_dx defaults to 1e-2 at every call site in the source). -/
def find_root_near (fx dfdx : ℚ → ℚ) (x0 : ℚ) (direction : ℤ) (maxDx : ℚ)
    (fuel : ℕ) : NRes :=
  findRootNearGo fx dfdx (fx x0) direction maxDx fuel x0

/-- The sequence of Newton iterates from a starting point (total companion
of the loop, used to talk about the iterate that left the domain). -/
def newtonIter (fx dfdx : ℚ → ℚ) (y0 : ℚ) (direction : ℤ) (maxDx : ℚ) :
    ℕ → ℚ → ℚ
  | 0, x => x
  | k+1, x => newtonIter fx dfdx y0 direction maxDx k
      (newtonStep fx dfdx y0 direction maxDx x)

/-- Bracket-refinement step of find_limit, new lower end of the x bracket:
when the scaled slope is positive x0 moves to x, otherwise x0 is re-solved
by bisection between x (the new x1) and the old x0. -/
def refineX0 (fxy dfdx : ℚ → ℚ → ℚ) (sign : ℤ) (x0 x y : ℚ) : ℚ :=
  if 0 < (sign : ℚ) * dfdx x y then x
  else find_root_between (fun t => fxy t y) x x0

/-- Bracket-refinement step of find_limit, new upper end of the x bracket:
when the scaled slope is positive x1 is re-solved by bisection between x
(the new x0) and the old x1, otherwise x1 moves to x. -/
def refineX1 (fxy dfdx : ℚ → ℚ → ℚ) (sign : ℤ) (x1 x y : ℚ) : ℚ :=
  if 0 < (sign : ℚ) * dfdx x y then find_root_between (fun t => fxy t y) x x1
  else x

/-- The inner directional solve for y inside find_limit's loop: a Newton
search in y from the previous y (warm start), directed by the sign of the
inequality value z = fxy x y just before the update. -/
def innerYSolve (fxy dfdy : ℚ → ℚ → ℚ) (sign : ℤ) (nfuel : ℕ) (x y : ℚ) : NRes :=
  find_root_near (fun t => fxy x t) (fun t => dfdy x t) y
    (if fxy x y < 0 then sign else -sign) (1/100) nfuel

/-- The bracket-refinement loop of find_limit: while the x bracket is wider
than TOLERANCE, tighten the stale side of the bracket by bisection at the
current y, recompute x as the midpoint, and re-solve for y with the
directional solver; a None from the inner solve (noRoot) is returned
immediately, as are the zeroDiv and fuelOut artefacts. -/
def findLimitLoop (fxy dfdx dfdy : ℚ → ℚ → ℚ) (sign : ℤ) (nfuel : ℕ) :
    ℕ → ℚ → ℚ → ℚ → ℚ → NRes
  | 0, _, _, _, _ => .fuelOut
  | n+1, x0, x1, x, y =>
      if TOLERANCE < |x0 - x1| then
        match innerYSolve fxy dfdy sign nfuel
            ((refineX0 fxy dfdx sign x0 x y + refineX1 fxy dfdx sign x1 x y) / 2) y with
        | .found yn =>
            findLimitLoop fxy dfdx dfdy sign nfuel n
              (refineX0 fxy dfdx sign x0 x y) (refineX1 fxy dfdx sign x1 x y)
              ((refineX0 fxy dfdx sign x0 x y + refineX1 fxy dfdx sign x1 x y) / 2) yn
        | r => r
      else .found y

/-- find_limit from the source.  Starts at the corner x = 1 - side,
y = side of the domain.  If the inequality is already positive there, a
directional solve moves x inward; no root means y = side itself is the
answer.  Otherwise y is initialised by bisection at the corner x, an
immediately-falling slope returns that y, and in the remaining cases the
bracket-refinement loop runs. -/
def find_limit (fxy dfdx dfdy : ℚ → ℚ → ℚ) (side : ℤ) (nfuel ofuel : ℕ) : NRes :=
  if 0 < fxy (1 - (side : ℚ)) (side : ℚ) then
    match find_root_near (fun t => fxy t (side : ℚ)) (fun t => dfdx t (side : ℚ))
        (1 - (side : ℚ)) (-(1 - 2 * side)) (1/100) nfuel with
    | .noRoot => .found (side : ℚ)
    | .found xr =>
        findLimitLoop fxy dfdx dfdy (1 - 2 * side) nfuel ofuel
          xr (1 - (1 - (side : ℚ))) xr (side : ℚ)
    | r => r
  else
    if (((1 - 2 * side : ℤ) : ℚ)) * dfdx (1 - (side : ℚ))
        (find_root_between (fun t => fxy (1 - (side : ℚ)) t)
          (1 - (side : ℚ)) (1 - (1 - (side : ℚ)))) < 0 then
      .found (find_root_between (fun t => fxy (1 - (side : ℚ)) t)
        (1 - (side : ℚ)) (1 - (1 - (side : ℚ))))
    else
      findLimitLoop fxy dfdx dfdy (1 - 2 * side) nfuel ofuel
        (1 - (side : ℚ)) (1 - (1 - (side : ℚ))) (1 - (side : ℚ))
        (find_root_between (fun t => fxy (1 - (side : ℚ)) t)
          (1 - (side : ℚ)) (1 - (1 - (side : ℚ))))

/-- Concrete function used to exhibit non-termination of find_root_near:
value 1 below 0.505 and -1 above, so the forced-direction Newton iterates
oscillate between 0.5 and 0.51 forever. -/
def fStep : ℚ → ℚ := fun x => if x < 101/200 then 1 else -1

/-- Derivative handed to find_root_near together with fStep: the constant
1/1000, so every raw Newton step is clamped to the maximum step size. -/
def dfStep : ℚ → ℚ := fun _ => 1/1000

/-- Step function with a sign change at 3/4: bisection on [0,1] narrows the
bracket around 3/4 but the returned midpoint still has |f| = 1. -/
def fC1 : ℚ → ℚ := fun x => if x < 3/4 then -1 else 1

/-- Function negative everywhere except at the single point 1/2, where it is
1: both endpoints of [0,1] share a sign, yet the first bisection midpoint
hits the positive point and locks the bracket onto it. -/
def fC3 : ℚ → ℚ := fun x => if x = 1/2 then 1 else -2

/-- Inequality function used in the witness of the boundary-tracer claim:
ignores x and steps from -1 to 0 at y = 1/128, so the corner value is 0,
the y bisection lands just below 1/128, and the inner directional solve
exits the domain downward in one clamped step. -/
def fC4 : ℚ → ℚ → ℚ := fun _ y => if y < 1/128 then -1 else 0

/-- Inequality function used in the witness of the in-domain claim: at
y = 0 it is 1/200 at the corner x = 1 and -1 below, so the directional
x solve takes one small step inward, sees the sign flip, reverses, and
leaves the domain upward after two iterations. -/
def fC10 : ℚ → ℚ → ℚ := fun t _ => if t < 1 then -1 else 1/200

/- ----------------------------------------------------------------- -/
/- The real-valued model: bodies, scanners, fov scaling, inequality.  -/
/- ----------------------------------------------------------------- -/

/-- Body from the source: the five constructor fields of the dataclass. -/
structure Body where
  radius : ℝ
  rotation_period : ℝ
  standard_gravity : ℝ
  safe_altitude : ℝ
  soi_radius : ℝ

/-- geo_radius, the derived field computed in Body.__post_init__:
(mu t^2 / (4 pi^2))^(1/3). -/
noncomputable def Body.geo_radius (b : Body) : ℝ :=
  (b.standard_gravity * b.rotation_period ^ 2 / (4 * Real.pi ^ 2)) ^ ((1 : ℝ)/3)

/-- Body.get_sma from the source: (p/q)^(2/3) * geo_radius. -/
noncomputable def Body.get_sma (b : Body) (p q : ℝ) : ℝ :=
  (p / q) ^ ((2 : ℝ)/3) * b.geo_radius

/-- The kerbin entry of the BODIES table (only its radius is used by the
fov scaling). -/
noncomputable def kerbin : Body :=
  ⟨600000, 21549.425, 3.5316e12, 70000, 84159286⟩

/-- Scanner from the source: a plain dataclass with four fields and no
validation of any kind. -/
structure Scanner where
  fov : ℝ
  altitude_min : ℝ
  altitude_best : ℝ
  altitude_max : ℝ

/-- First phase of get_scaled_fov_and_altitude: the fov is amplified by
sqrt(r_kerbin / r) for bodies smaller than kerbin and left alone otherwise. -/
noncomputable def scaled_fov (scanner : Scanner) (body : Body) : ℝ :=
  if body.radius < kerbin.radius then
    scanner.fov * Real.sqrt (kerbin.radius / body.radius)
  else scanner.fov

/-- get_scaled_fov_and_altitude from the source: after the size scaling, a
fov above FOV_MAX is capped at FOV_MAX and the best altitude is lowered by
the factor FOV_MAX / fov. -/
noncomputable def get_scaled_fov_and_altitude (scanner : Scanner) (body : Body) : ℝ × ℝ :=
  if FOV_MAX < scaled_fov scanner body then
    (FOV_MAX, scanner.altitude_best * (FOV_MAX / scaled_fov scanner body))
  else (scaled_fov scanner body, scanner.altitude_best)

/-- The constant k = 180 * fov_alt / fov computed in Solver.__init__ from
the scaled fov and altitude. -/
noncomputable def solverK (scanner : Scanner) (body : Body) : ℝ :=
  180 * (get_scaled_fov_and_altitude scanner body).2 /
    (get_scaled_fov_and_altitude scanner body).1

namespace Solver

/-- Solver._s: sqrt(q^2 (1-xy)^4 + p^2 (1-y^2)^3). -/
noncomputable def s (p q x y : ℝ) : ℝ :=
  Real.sqrt (q ^ 2 * (1 - x*y) ^ 4 + p ^ 2 * (1 - y*y) ^ 3)

/-- Solver._ds_dx: -2 q^2 y (1-xy)^3 / s. -/
noncomputable def ds_dx (p q x y : ℝ) : ℝ :=
  -2 * (q ^ 2 * y * (1 - x*y) ^ 3) / s p q x y

/-- Solver._ds_dy: -(2 q^2 x (1-xy)^3 + 3 p^2 y (1-y^2)^2) / s. -/
noncomputable def ds_dy (p q x y : ℝ) : ℝ :=
  -(2 * q ^ 2 * x * (1 - x*y) ^ 3 + 3 * p ^ 2 * y * (1 - y*y) ^ 2) / s p q x y

/-- Solver._f: (1-y^2) sma(p,q) - (1-xy) R (p and q enter through sma). -/
noncomputable def f (body : Body) (p q x y : ℝ) : ℝ :=
  (1 - y*y) * body.get_sma p q - (1 - x*y) * body.radius

/-- Solver._df_dx: R y. -/
noncomputable def df_dx (body : Body) (y : ℝ) : ℝ := body.radius * y

/-- Solver._df_dy: x R - 2 y sma(p,q). -/
noncomputable def df_dy (body : Body) (p q x y : ℝ) : ℝ :=
  x * body.radius - 2 * y * body.get_sma p q

/-- Solver._m: k x (1-xy)^3 (p and q are unused in the source as well). -/
noncomputable def m (k x y : ℝ) : ℝ := k * x * (1 - x*y) ^ 3

/-- Solver._dm_dx: k (1-4xy)(1-xy)^2. -/
noncomputable def dm_dx (k x y : ℝ) : ℝ := k * (1 - 4*x*y) * (1 - x*y) ^ 2

/-- Solver._dm_dy: -3 k x^2 (1-xy)^2. -/
noncomputable def dm_dy (k x y : ℝ) : ℝ := -3 * k * x ^ 2 * (1 - x*y) ^ 2

/-- Solver._inequality_value: s * f - m. -/
noncomputable def inequality_value (body : Body) (k p q x y : ℝ) : ℝ :=
  s p q x y * f body p q x y - m k x y

/-- Solver._inequality_d_dx: s df_dx + f ds_dx - dm_dx. -/
noncomputable def inequality_d_dx (body : Body) (k p q x y : ℝ) : ℝ :=
  s p q x y * df_dx body y + f body p q x y * ds_dx p q x y - dm_dx k x y

/-- Solver._inequality_d_dy: s df_dy + f ds_dy - dm_dy. -/
noncomputable def inequality_d_dy (body : Body) (k p q x y : ℝ) : ℝ :=
  s p q x y * df_dy body p q x y + f body p q x y * ds_dy p q x y - dm_dy k x y

/-- Solver._fixed_track_value: s - m / fov_alt. -/
noncomputable def fixed_track_value (fov_alt k p q x y : ℝ) : ℝ :=
  s p q x y - m k x y / fov_alt

end Solver

/- ----------------------------------------------------------------- -/
/- Helper lemmas.                                                     -/
/- ----------------------------------------------------------------- -/

theorem tolerance_pos : (0 : ℚ) < TOLERANCE := by norm_num [TOLERANCE]

theorem midpoint_mem (x0 x1 : ℚ) :
    min x0 x1 ≤ (x0 + x1) / 2 ∧ (x0 + x1) / 2 ≤ max x0 x1 := by
  rcases le_total x0 x1 with hc | hc
  · rw [min_eq_left hc, max_eq_right hc]; constructor <;> linarith
  · rw [min_eq_right hc, max_eq_left hc]; constructor <;> linarith

theorem bisect_width_le_fuel (x0 x1 : ℚ) :
    |x0 - x1| ≤ TOLERANCE * 2 ^ bisectFuel x0 x1 := by
  show |x0 - x1| ≤ TOLERANCE * 2 ^ (⌈|x0 - x1| / TOLERANCE⌉).toNat
  have htol : (0 : ℚ) < TOLERANCE := tolerance_pos
  have h0 : 0 ≤ |x0 - x1| / TOLERANCE := div_nonneg (abs_nonneg _) htol.le
  have hceil : (0 : ℤ) ≤ ⌈|x0 - x1| / TOLERANCE⌉ := Int.ceil_nonneg h0
  have h1 : |x0 - x1| / TOLERANCE ≤ ((⌈|x0 - x1| / TOLERANCE⌉.toNat : ℕ) : ℚ) := by
    have h2 := Int.le_ceil (|x0 - x1| / TOLERANCE)
    have h3 : ((⌈|x0 - x1| / TOLERANCE⌉.toNat : ℕ) : ℤ) = ⌈|x0 - x1| / TOLERANCE⌉ :=
      Int.toNat_of_nonneg hceil
    calc |x0 - x1| / TOLERANCE ≤ ((⌈|x0 - x1| / TOLERANCE⌉ : ℤ) : ℚ) := h2
      _ = ((⌈|x0 - x1| / TOLERANCE⌉.toNat : ℕ) : ℚ) := by rw [← h3]; norm_cast
  have h4 : ((⌈|x0 - x1| / TOLERANCE⌉.toNat : ℕ) : ℚ) <
      2 ^ ⌈|x0 - x1| / TOLERANCE⌉.toNat := by
    exact_mod_cast Nat.lt_two_pow ⌈|x0 - x1| / TOLERANCE⌉.toNat
  have h5 : |x0 - x1| / TOLERANCE ≤ 2 ^ ⌈|x0 - x1| / TOLERANCE⌉.toNat :=
    h1.trans h4.le
  calc |x0 - x1| = |x0 - x1| / TOLERANCE * TOLERANCE := by field_simp
    _ ≤ 2 ^ ⌈|x0 - x1| / TOLERANCE⌉.toNat * TOLERANCE :=
        mul_le_mul_of_nonneg_right h5 htol.le
    _ = TOLERANCE * 2 ^ ⌈|x0 - x1| / TOLERANCE⌉.toNat := mul_comm _ _

theorem bisectGo_isSome (fx : ℚ → ℚ) :
    ∀ (n : ℕ) (x0 x1 y0 y1 : ℚ), |x0 - x1| ≤ TOLERANCE * 2 ^ n →
      (bisectGo fx n x0 x1 y0 y1).isSome = true := by
  intro n
  induction n with
  | zero =>
      intro x0 x1 y0 y1 h
      rw [pow_zero, mul_one] at h
      simp only [bisectGo]
      rw [if_neg (not_lt.mpr h)]
      rfl
  | succ n ih =>
      intro x0 x1 y0 y1 h
      simp only [bisectGo]
      by_cases hg : TOLERANCE < |x0 - x1|
      · rw [if_pos hg]
        have e1 : (x0 + x1) / 2 - x1 = (x0 - x1) / 2 := by ring
        have e2 : x0 - (x0 + x1) / 2 = (x0 - x1) / 2 := by ring
        have habs : |(x0 - x1) / 2| = |x0 - x1| / 2 := by
          rw [abs_div]; norm_num
        have hw : |x0 - x1| / 2 ≤ TOLERANCE * 2 ^ n := by
          rw [pow_succ] at h; linarith
        by_cases hy : fx ((x0 + x1) / 2) < 0
        · rw [if_pos hy]
          exact ih _ _ _ _ (by rw [e1, habs]; exact hw)
        · rw [if_neg hy]
          exact ih _ _ _ _ (by rw [e2, habs]; exact hw)
      · rw [if_neg hg]; rfl

theorem bisectGo_spec (fx : ℚ → ℚ) :
    ∀ (n : ℕ) (x0 x1 r : ℚ),
      bisectGo fx n x0 x1 (fx x0) (fx x1) = some r →
      ∃ a b, min x0 x1 ≤ a ∧ a ≤ max x0 x1 ∧ min x0 x1 ≤ b ∧ b ≤ max x0 x1 ∧
        |a - b| ≤ TOLERANCE ∧ r = bisectExit a b (fx a) (fx b) ∧
        (fx x0 < 0 → 0 ≤ fx x1 → fx a < 0 ∧ 0 ≤ fx b) := by
  intro n
  induction n with
  | zero =>
      intro x0 x1 r h
      simp only [bisectGo] at h
      by_cases hg : TOLERANCE < |x0 - x1|
      · rw [if_pos hg] at h; exact absurd h (by simp)
      · rw [if_neg hg] at h
        refine ⟨x0, x1, min_le_left _ _, le_max_left _ _, min_le_right _ _,
          le_max_right _ _, not_lt.mp hg, (Option.some_inj.mp h).symm, ?_⟩
        intro h0 h1; exact ⟨h0, h1⟩
  | succ n ih =>
      intro x0 x1 r h
      simp only [bisectGo] at h
      by_cases hg : TOLERANCE < |x0 - x1|
      · rw [if_pos hg] at h
        have hmlo := (midpoint_mem x0 x1).1
        have hmhi := (midpoint_mem x0 x1).2
        by_cases hy : fx ((x0 + x1) / 2) < 0
        · rw [if_pos hy] at h
          obtain ⟨a, b, ha1, ha2, hb1, hb2, hab, hr, hsgn⟩ := ih ((x0 + x1) / 2) x1 r h
          refine ⟨a, b, ?_, ?_, ?_, ?_, hab, hr, ?_⟩
          · exact le_trans (le_min hmlo (min_le_right x0 x1)) ha1
          · exact le_trans ha2 (max_le hmhi (le_max_right x0 x1))
          · exact le_trans (le_min hmlo (min_le_right x0 x1)) hb1
          · exact le_trans hb2 (max_le hmhi (le_max_right x0 x1))
          · intro _ h1; exact hsgn hy h1
        · rw [if_neg hy] at h
          obtain ⟨a, b, ha1, ha2, hb1, hb2, hab, hr, hsgn⟩ := ih x0 ((x0 + x1) / 2) r h
          refine ⟨a, b, ?_, ?_, ?_, ?_, hab, hr, ?_⟩
          · exact le_trans (le_min (min_le_left x0 x1) hmlo) ha1
          · exact le_trans ha2 (max_le (le_max_left x0 x1) hmhi)
          · exact le_trans (le_min (min_le_left x0 x1) hmlo) hb1
          · exact le_trans hb2 (max_le (le_max_left x0 x1) hmhi)
          · intro h0 _; exact hsgn h0 (not_lt.mp hy)
      · rw [if_neg hg] at h
        refine ⟨x0, x1, min_le_left _ _, le_max_left _ _, min_le_right _ _,
          le_max_right _ _, not_lt.mp hg, (Option.some_inj.mp h).symm, ?_⟩
        intro h0 h1; exact ⟨h0, h1⟩

theorem bisectGo_done (fx : ℚ → ℚ) (n : ℕ) (x0 x1 y0 y1 : ℚ)
    (hg : ¬ TOLERANCE < |x0 - x1|) :
    bisectGo fx n x0 x1 y0 y1 = some (bisectExit x0 x1 y0 y1) := by
  cases n <;> · simp only [bisectGo]; rw [if_neg hg]

theorem bisectGo_step (fx : ℚ → ℚ) (n : ℕ) (x0 x1 y0 y1 m ym : ℚ)
    (hg : TOLERANCE < |x0 - x1|) (hm : (x0 + x1) / 2 = m) (hy : fx m = ym) :
    bisectGo fx (n+1) x0 x1 y0 y1 =
      if ym < 0 then bisectGo fx n m x1 ym y1 else bisectGo fx n x0 m y0 ym := by
  simp only [bisectGo]
  rw [if_pos hg, hm, hy]

theorem bisectGo_unique (fx : ℚ → ℚ) :
    ∀ (n m : ℕ) (x0 x1 y0 y1 r r' : ℚ),
      bisectGo fx n x0 x1 y0 y1 = some r → bisectGo fx m x0 x1 y0 y1 = some r' →
      r = r' := by
  intro n
  induction n with
  | zero =>
      intro m x0 x1 y0 y1 r r' h h'
      simp only [bisectGo] at h
      by_cases hg : TOLERANCE < |x0 - x1|
      · rw [if_pos hg] at h; exact absurd h (by simp)
      · rw [bisectGo_done fx m x0 x1 y0 y1 hg] at h'
        rw [if_neg hg] at h
        rw [← Option.some_inj.mp h, ← Option.some_inj.mp h']
  | succ n ih =>
      intro m x0 x1 y0 y1 r r' h h'
      by_cases hg : TOLERANCE < |x0 - x1|
      · simp only [bisectGo] at h
        rw [if_pos hg] at h
        cases m with
        | zero =>
            simp only [bisectGo] at h'
            rw [if_pos hg] at h'
            exact absurd h' (by simp)
        | succ m =>
            simp only [bisectGo] at h'
            rw [if_pos hg] at h'
            by_cases hy : fx ((x0 + x1) / 2) < 0
            · rw [if_pos hy] at h h'; exact ih m _ _ _ _ _ _ h h'
            · rw [if_neg hy] at h h'; exact ih m _ _ _ _ _ _ h h'
      · rw [bisectGo_done fx _ _ _ _ _ hg] at h h'
        rw [← Option.some_inj.mp h, ← Option.some_inj.mp h']

theorem find_root_between_eq (fx : ℚ → ℚ) (x0 x1 y0 y1 r : ℚ) (n : ℕ)
    (h0 : fx x0 = y0) (h1 : fx x1 = y1) (hswap : ¬ (y1 < 0 ∧ 0 < y0))
    (h : bisectGo fx n x0 x1 y0 y1 = some r) :
    find_root_between fx x0 x1 = r := by
  unfold find_root_between
  rw [h0, h1, if_neg hswap]
  have hsome := bisectGo_isSome fx (bisectFuel x0 x1) x0 x1 y0 y1
    (bisect_width_le_fuel x0 x1)
  obtain ⟨r', hr'⟩ := Option.isSome_iff_exists.mp hsome
  rw [hr', Option.getD_some]
  exact bisectGo_unique fx _ n x0 x1 y0 y1 r' r hr' h

theorem find_root_between_spec (fx : ℚ → ℚ) (x0 x1 : ℚ) :
    ∃ a b, min x0 x1 ≤ a ∧ a ≤ max x0 x1 ∧ min x0 x1 ≤ b ∧ b ≤ max x0 x1 ∧
      |a - b| ≤ TOLERANCE ∧
      find_root_between fx x0 x1 = bisectExit a b (fx a) (fx b) ∧
      ((fx x0 < 0 ∧ 0 < fx x1) ∨ (fx x1 < 0 ∧ 0 < fx x0) →
        fx a < 0 ∧ 0 ≤ fx b) := by
  unfold find_root_between
  by_cases hswap : fx x1 < 0 ∧ 0 < fx x0
  · rw [if_pos hswap]
    have hsome := bisectGo_isSome fx (bisectFuel x1 x0) x1 x0 (fx x1) (fx x0)
      (bisect_width_le_fuel x1 x0)
    obtain ⟨r, hr⟩ := Option.isSome_iff_exists.mp hsome
    rw [hr, Option.getD_some]
    obtain ⟨a, b, ha1, ha2, hb1, hb2, hab, hre, hsgn⟩ :=
      bisectGo_spec fx (bisectFuel x1 x0) x1 x0 r hr
    rw [min_comm x1 x0] at ha1 hb1
    rw [max_comm x1 x0] at ha2 hb2
    exact ⟨a, b, ha1, ha2, hb1, hb2, hab, hre, fun _ => hsgn hswap.1 hswap.2.le⟩
  · rw [if_neg hswap]
    have hsome := bisectGo_isSome fx (bisectFuel x0 x1) x0 x1 (fx x0) (fx x1)
      (bisect_width_le_fuel x0 x1)
    obtain ⟨r, hr⟩ := Option.isSome_iff_exists.mp hsome
    rw [hr, Option.getD_some]
    obtain ⟨a, b, ha1, ha2, hb1, hb2, hab, hre, hsgn⟩ :=
      bisectGo_spec fx (bisectFuel x0 x1) x0 x1 r hr
    refine ⟨a, b, ha1, ha2, hb1, hb2, hab, hre, ?_⟩
    rintro (hbr | hbr)
    · exact hsgn hbr.1 hbr.2.le
    · exact absurd hbr hswap

theorem bisectExit_mem (a b y0 y1 : ℚ) :
    min a b ≤ bisectExit a b y0 y1 ∧ bisectExit a b y0 y1 ≤ max a b := by
  unfold bisectExit
  split_ifs with h1 h2
  · exact ⟨min_le_left _ _, le_max_left _ _⟩
  · exact ⟨min_le_right _ _, le_max_right _ _⟩
  · exact midpoint_mem a b

theorem find_root_between_mem (fx : ℚ → ℚ) (x0 x1 : ℚ) :
    min x0 x1 ≤ find_root_between fx x0 x1 ∧
      find_root_between fx x0 x1 ≤ max x0 x1 := by
  obtain ⟨a, b, ha1, ha2, hb1, hb2, _, hre, _⟩ := find_root_between_spec fx x0 x1
  rw [hre]
  have hmem := bisectExit_mem a b (fx a) (fx b)
  constructor
  · exact le_trans (le_min ha1 hb1) hmem.1
  · exact le_trans hmem.2 (max_le ha2 hb2)

theorem findRootNearGo_found (fx dfdx : ℚ → ℚ) (y0 : ℚ) (direction : ℤ)
    (maxDx : ℚ) :
    ∀ (n : ℕ) (x v : ℚ),
      findRootNearGo fx dfdx y0 direction maxDx n x = NRes.found v →
      0 ≤ v ∧ v ≤ 1 := by
  intro n
  induction n with
  | zero => intro x v h; exact absurd h (by simp [findRootNearGo])
  | succ n ih =>
      intro x v h
      simp only [findRootNearGo] at h
      by_cases h1 : dfdx x = 0
      · rw [if_pos h1] at h; cases h
      · rw [if_neg h1] at h
        by_cases h2 : newtonStep fx dfdx y0 direction maxDx x < 0 ∨
            1 < newtonStep fx dfdx y0 direction maxDx x
        · rw [if_pos h2] at h; cases h
        · rw [if_neg h2] at h
          push_neg at h2
          by_cases h3 : TOLERANCE < |x - newtonStep fx dfdx y0 direction maxDx x|
          · rw [if_pos h3] at h; exact ih _ _ h
          · rw [if_neg h3] at h
            injection h with hv
            rw [← hv]
            exact ⟨h2.1, h2.2⟩

theorem find_root_near_found (fx dfdx : ℚ → ℚ) (x0 : ℚ) (direction : ℤ)
    (maxDx : ℚ) (fuel : ℕ) (v : ℚ)
    (h : find_root_near fx dfdx x0 direction maxDx fuel = NRes.found v) :
    0 ≤ v ∧ v ≤ 1 :=
  findRootNearGo_found fx dfdx (fx x0) direction maxDx fuel x0 v h

theorem findRootNearGo_stepCont (fx dfdx : ℚ → ℚ) (y0 : ℚ) (dir : ℤ)
    (maxDx : ℚ) (n : ℕ) (x x' : ℚ) (hdf : ¬ dfdx x = 0)
    (hx : newtonStep fx dfdx y0 dir maxDx x = x')
    (hdom : ¬ (x' < 0 ∨ 1 < x')) (hg : TOLERANCE < |x - x'|) :
    findRootNearGo fx dfdx y0 dir maxDx (n+1) x =
      findRootNearGo fx dfdx y0 dir maxDx n x' := by
  simp only [findRootNearGo]
  rw [if_neg hdf, hx, if_neg hdom, if_pos hg]

theorem findRootNearGo_stepNoRoot (fx dfdx : ℚ → ℚ) (y0 : ℚ) (dir : ℤ)
    (maxDx : ℚ) (n : ℕ) (x x' : ℚ) (hdf : ¬ dfdx x = 0)
    (hx : newtonStep fx dfdx y0 dir maxDx x = x')
    (hdom : x' < 0 ∨ 1 < x') :
    findRootNearGo fx dfdx y0 dir maxDx (n+1) x = NRes.noRoot := by
  simp only [findRootNearGo]
  rw [if_neg hdf, hx, if_pos hdom]

theorem findRootNearGo_stepFound (fx dfdx : ℚ → ℚ) (y0 : ℚ) (dir : ℤ)
    (maxDx : ℚ) (n : ℕ) (x x' : ℚ) (hdf : ¬ dfdx x = 0)
    (hx : newtonStep fx dfdx y0 dir maxDx x = x')
    (hdom : ¬ (x' < 0 ∨ 1 < x')) (hg : ¬ TOLERANCE < |x - x'|) :
    findRootNearGo fx dfdx y0 dir maxDx (n+1) x = NRes.found x' := by
  simp only [findRootNearGo]
  rw [if_neg hdf, hx, if_neg hdom, if_neg hg]

theorem findRootNearGo_stepZeroDiv (fx dfdx : ℚ → ℚ) (y0 : ℚ) (dir : ℤ)
    (maxDx : ℚ) (n : ℕ) (x : ℚ) (hdf : dfdx x = 0) :
    findRootNearGo fx dfdx y0 dir maxDx (n+1) x = NRes.zeroDiv := by
  simp only [findRootNearGo]
  rw [if_pos hdf]

theorem findRootNearGo_noRoot (fx dfdx : ℚ → ℚ) (y0 : ℚ) (direction : ℤ)
    (maxDx : ℚ) :
    ∀ (n : ℕ) (x : ℚ),
      findRootNearGo fx dfdx y0 direction maxDx n x = NRes.noRoot →
      ∃ k, k < n ∧ (newtonIter fx dfdx y0 direction maxDx (k+1) x < 0 ∨
        1 < newtonIter fx dfdx y0 direction maxDx (k+1) x) := by
  intro n
  induction n with
  | zero => intro x h; exact absurd h (by simp [findRootNearGo])
  | succ n ih =>
      intro x h
      simp only [findRootNearGo] at h
      by_cases h1 : dfdx x = 0
      · rw [if_pos h1] at h; cases h
      · rw [if_neg h1] at h
        by_cases h2 : newtonStep fx dfdx y0 direction maxDx x < 0 ∨
            1 < newtonStep fx dfdx y0 direction maxDx x
        · refine ⟨0, Nat.succ_pos n, ?_⟩
          show newtonIter fx dfdx y0 direction maxDx 0
              (newtonStep fx dfdx y0 direction maxDx x) < 0 ∨
            1 < newtonIter fx dfdx y0 direction maxDx 0
              (newtonStep fx dfdx y0 direction maxDx x)
          simpa [newtonIter] using h2
        · rw [if_neg h2] at h
          by_cases h3 : TOLERANCE < |x - newtonStep fx dfdx y0 direction maxDx x|
          · rw [if_pos h3] at h
            obtain ⟨k, hk, hdom⟩ := ih _ h
            refine ⟨k + 1, Nat.succ_lt_succ hk, ?_⟩
            show newtonIter fx dfdx y0 direction maxDx (k+1)
                (newtonStep fx dfdx y0 direction maxDx x) < 0 ∨
              1 < newtonIter fx dfdx y0 direction maxDx (k+1)
                (newtonStep fx dfdx y0 direction maxDx x)
            exact hdom
          · rw [if_neg h3] at h; cases h

theorem findLimitLoop_found (fxy dfdx dfdy : ℚ → ℚ → ℚ) (sign : ℤ) (nfuel : ℕ) :
    ∀ (n : ℕ) (x0 x1 x y v : ℚ), 0 ≤ y → y ≤ 1 →
      findLimitLoop fxy dfdx dfdy sign nfuel n x0 x1 x y = NRes.found v →
      0 ≤ v ∧ v ≤ 1 := by
  intro n
  induction n with
  | zero => intro x0 x1 x y v _ _ h; exact absurd h (by simp [findLimitLoop])
  | succ n ih =>
      intro x0 x1 x y v hy0 hy1 h
      simp only [findLimitLoop] at h
      by_cases hg : TOLERANCE < |x0 - x1|
      · rw [if_pos hg] at h
        rcases hres : innerYSolve fxy dfdy sign nfuel
            ((refineX0 fxy dfdx sign x0 x y + refineX1 fxy dfdx sign x1 x y) / 2) y
          with _ | _ | _ | yn
        · rw [hres] at h; exact absurd h (by simp)
        · rw [hres] at h; exact absurd h (by simp)
        · rw [hres] at h; exact absurd h (by simp)
        · rw [hres] at h
          have hyn := find_root_near_found _ _ _ _ _ _ _ hres
          exact ih _ _ _ _ _ hyn.1 hyn.2 h
      · rw [if_neg hg] at h
        injection h with hv
        rw [← hv]; exact ⟨hy0, hy1⟩

theorem find_limit_pos_noRoot (fxy dfdx dfdy : ℚ → ℚ → ℚ) (side : ℤ)
    (nfuel ofuel : ℕ)
    (h1 : 0 < fxy (1 - (side : ℚ)) (side : ℚ))
    (h2 : find_root_near (fun t => fxy t (side : ℚ)) (fun t => dfdx t (side : ℚ))
      (1 - (side : ℚ)) (-(1 - 2 * side)) (1/100) nfuel = NRes.noRoot) :
    find_limit fxy dfdx dfdy side nfuel ofuel = NRes.found (side : ℚ) := by
  unfold find_limit
  rw [if_pos h1, h2]

theorem find_limit_neg_found (fxy dfdx dfdy : ℚ → ℚ → ℚ) (side : ℤ)
    (nfuel ofuel : ℕ) (yb : ℚ)
    (h1 : ¬ 0 < fxy (1 - (side : ℚ)) (side : ℚ))
    (hyb : find_root_between (fun t => fxy (1 - (side : ℚ)) t) (1 - (side : ℚ))
      (1 - (1 - (side : ℚ))) = yb)
    (h2 : (((1 - 2 * side : ℤ) : ℚ)) * dfdx (1 - (side : ℚ)) yb < 0) :
    find_limit fxy dfdx dfdy side nfuel ofuel = NRes.found yb := by
  unfold find_limit
  rw [if_neg h1, hyb, if_pos h2]

theorem newton_oscillates :
    ∀ n : ℕ, findRootNearGo fStep dfStep 1 1 (1/100) n (1/2) = NRes.fuelOut ∧
      findRootNearGo fStep dfStep 1 1 (1/100) n (51/100) = NRes.fuelOut := by
  have e1 : newtonStep fStep dfStep 1 1 (1/100) (1/2) = 51/100 := by
    norm_num [newtonStep, newtonClamp, newtonDir, fStep, dfStep, lt_abs, abs_lt]
  have e2 : newtonStep fStep dfStep 1 1 (1/100) (51/100) = 1/2 := by
    norm_num [newtonStep, newtonClamp, newtonDir, fStep, dfStep, lt_abs, abs_lt]
  intro n
  induction n with
  | zero => exact ⟨rfl, rfl⟩
  | succ n ih =>
      refine ⟨?_, ?_⟩
      · rw [findRootNearGo_stepCont fStep dfStep 1 1 (1/100) n (1/2) (51/100)
          (by norm_num [dfStep]) e1 (by norm_num) (by norm_num [TOLERANCE, lt_abs])]
        exact ih.2
      · rw [findRootNearGo_stepCont fStep dfStep 1 1 (1/100) n (51/100) (1/2)
          (by norm_num [dfStep]) e2 (by norm_num) (by norm_num [TOLERANCE, lt_abs])]
        exact ih.1

/- ----------------------------------------------------------------- -/
/- Claims.                                                            -/
/- ----------------------------------------------------------------- -/

/-- Claim C9, amended.  The bisection loop of find_root_between terminates
on every input: some finite fuel makes it reach its exit (the bracket
halves each pass until its width is at most TOLERANCE).  The Newton loop
of find_root_near, however, does not terminate on every input: there are
a function, derivative, starting point and direction for which the loop
runs forever (the value flips sign relative to y0 between two points one
clamped step apart, so the forced direction alternates and the iterates
cycle inside [0,1]); the step clamp plus the domain-exit check bound only
runs without direction reversals. -/
theorem claim_C9 :
    (∀ (fx : ℚ → ℚ) (x0 x1 y0 y1 : ℚ), ∃ n : ℕ,
      (bisectGo fx n x0 x1 y0 y1).isSome = true) ∧
    (∃ (fx dfdx : ℚ → ℚ) (x0 : ℚ) (direction : ℤ) (maxDx : ℚ),
      ∀ n : ℕ, find_root_near fx dfdx x0 direction maxDx n = NRes.fuelOut) := by
  constructor
  · intro fx x0 x1 y0 y1
    exact ⟨bisectFuel x0 x1,
      bisectGo_isSome fx (bisectFuel x0 x1) x0 x1 y0 y1 (bisect_width_le_fuel x0 x1)⟩
  · refine ⟨fStep, dfStep, 1/2, 1, 1/100, fun n => ?_⟩
    have hy0 : fStep (1/2) = 1 := by norm_num [fStep]
    unfold find_root_near
    rw [hy0]
    exact (newton_oscillates n).1

/-- Claim C9, counterexample to the claim as stated: find_root_near does
not terminate on every input.  On the step function fStep (with the
clamped step 1/100 and derivative 1/1000) started at 1/2 in direction +1,
no amount of fuel makes the loop finish: the iterates cycle between 1/2
and 51/100 forever, so termination fails. -/
theorem claim_C9_counterexample :
    ¬ ∃ n : ℕ, find_root_near fStep dfStep (1/2) 1 (1/100) n ≠ NRes.fuelOut := by
  rintro ⟨n, hn⟩
  apply hn
  have hy0 : fStep (1/2) = 1 := by norm_num [fStep]
  unfold find_root_near
  rw [hy0]
  exact (newton_oscillates n).1

/-- Claim C2, amended.  For every f, df_dx, direction and starting point:
whenever the division f(x)/df_dx(x) succeeded (df_dx(x) is nonzero) and
the Newton iterate computed from x falls outside [0,1], the loop
immediately returns the no-root result (Python None) without a further
iteration; and conversely a no-root result only ever arises because some
iterate left [0,1].  Returning None is, however, not the only failure
mode: when df_dx evaluates to zero at an iterate, the division raises
ZeroDivisionError (see the counterexample). -/
theorem claim_C2 (fx dfdx : ℚ → ℚ) (y0 : ℚ) (direction : ℤ) (maxDx : ℚ)
    (n : ℕ) (x : ℚ) :
    (dfdx x ≠ 0 →
      (newtonStep fx dfdx y0 direction maxDx x < 0 ∨
        1 < newtonStep fx dfdx y0 direction maxDx x) →
      findRootNearGo fx dfdx y0 direction maxDx (n+1) x = NRes.noRoot) ∧
    (findRootNearGo fx dfdx y0 direction maxDx n x = NRes.noRoot →
      ∃ k, k < n ∧ (newtonIter fx dfdx y0 direction maxDx (k+1) x < 0 ∨
        1 < newtonIter fx dfdx y0 direction maxDx (k+1) x)) := by
  constructor
  · intro hdf hdom
    exact findRootNearGo_stepNoRoot fx dfdx y0 direction maxDx n x _ hdf rfl hdom
  · exact findRootNearGo_noRoot fx dfdx y0 direction maxDx n x

/-- Claim C2, witness: with f = 1, f' = 1 started at 0 in direction -1, the
first iterate is -1/100, outside [0,1], and the solver returns the no-root
result at once. -/
theorem claim_C2_witness :
    ((fun _ : ℚ => (1:ℚ)) 0 ≠ 0) ∧
    findRootNearGo (fun _ => (1:ℚ)) (fun _ => (1:ℚ)) 1 (-1) (1/100) 1 0 =
      NRes.noRoot := by
  constructor
  · norm_num
  · refine (claim_C2 (fun _ => (1:ℚ)) (fun _ => (1:ℚ)) 1 (-1) (1/100) 0 0).1
      (by norm_num) ?_
    left
    norm_num [newtonStep, newtonClamp, newtonDir, lt_abs, abs_lt]

/-- Claim C2, counterexample to "returning None is its only failure mode":
with the constant function 1 and the zero derivative, the very first
Newton update divides by zero, which raises ZeroDivisionError in the
source rather than returning None. -/
theorem claim_C2_counterexample :
    find_root_near (fun _ => (1:ℚ)) (fun _ => (0:ℚ)) (1/2) 1 (1/100) 5 =
      NRes.zeroDiv := by
  unfold find_root_near
  exact findRootNearGo_stepZeroDiv _ _ _ _ _ 4 (1/2) rfl

/-- Claim C1, amended.  For every function f and bracket x0, x1 with
f(x0) < 0 < f(x1) in either argument order, find_root_between returns a
value inside the closed interval between the original x0 and x1, it is
the midpoint of a final bracket of width at most TOLERANCE whose ends
still straddle the sign change, and the value guarantee |f(x*)| < eps
holds in the quantified form |f(x*)| <= L * TOLERANCE / 2 for any
Lipschitz bound L of f; for a discontinuous f no small bound on |f(x*)|
holds (see the counterexample). -/
theorem claim_C1 (fx : ℚ → ℚ) (x0 x1 L : ℚ)
    (hbr : (fx x0 < 0 ∧ 0 < fx x1) ∨ (fx x1 < 0 ∧ 0 < fx x0))
    (hL : ∀ a b : ℚ, |fx a - fx b| ≤ L * |a - b|) :
    min x0 x1 ≤ find_root_between fx x0 x1 ∧
    find_root_between fx x0 x1 ≤ max x0 x1 ∧
    |fx (find_root_between fx x0 x1)| ≤ L * TOLERANCE / 2 ∧
    ∃ a b, min x0 x1 ≤ a ∧ a ≤ max x0 x1 ∧ min x0 x1 ≤ b ∧ b ≤ max x0 x1 ∧
      |a - b| ≤ TOLERANCE ∧ fx a < 0 ∧ 0 ≤ fx b ∧
      find_root_between fx x0 x1 = (a + b) / 2 := by
  obtain ⟨a, b, ha1, ha2, hb1, hb2, hab, hre, hsgn⟩ := find_root_between_spec fx x0 x1
  obtain ⟨hfa, hfb⟩ := hsgn hbr
  have hexit : bisectExit a b (fx a) (fx b) = (a + b) / 2 := by
    unfold bisectExit
    rw [if_neg]
    intro hpos
    nlinarith
  rw [hexit] at hre
  have hL0 : 0 ≤ L := by
    have hne : x0 ≠ x1 := by
      intro he
      rcases hbr with ⟨h1, h2⟩ | ⟨h1, h2⟩
      · rw [he] at h1; linarith
      · rw [he] at h2; linarith
    have h1 := (abs_nonneg (fx x0 - fx x1)).trans (hL x0 x1)
    have h2 : 0 < |x0 - x1| := abs_pos.mpr (sub_ne_zero.mpr hne)
    nlinarith
  have hmid := midpoint_mem a b
  have hmem1 : min x0 x1 ≤ (a + b) / 2 := le_trans (le_min ha1 hb1) hmid.1
  have hmem2 : (a + b) / 2 ≤ max x0 x1 := le_trans hmid.2 (max_le ha2 hb2)
  have hda : |(a + b) / 2 - a| ≤ TOLERANCE / 2 := by
    have h1 : (a + b) / 2 - a = (b - a) / 2 := by ring
    rw [h1, abs_div, abs_sub_comm]
    have h2 : |(2:ℚ)| = 2 := by norm_num
    rw [h2]
    linarith
  have hdb : |b - (a + b) / 2| ≤ TOLERANCE / 2 := by
    have h1 : b - (a + b) / 2 = (b - a) / 2 := by ring
    rw [h1, abs_div, abs_sub_comm]
    have h2 : |(2:ℚ)| = 2 := by norm_num
    rw [h2]
    linarith
  have hfr : |fx ((a + b) / 2)| ≤ L * TOLERANCE / 2 := by
    have h1 := (le_abs_self (fx ((a + b) / 2) - fx a)).trans (hL ((a + b) / 2) a)
    have h2 := (le_abs_self (fx b - fx ((a + b) / 2))).trans (hL b ((a + b) / 2))
    have h3 : L * |(a + b) / 2 - a| ≤ L * (TOLERANCE / 2) :=
      mul_le_mul_of_nonneg_left hda hL0
    have h4 : L * |b - (a + b) / 2| ≤ L * (TOLERANCE / 2) :=
      mul_le_mul_of_nonneg_left hdb hL0
    rw [abs_le]
    constructor <;> nlinarith
  rw [hre]
  exact ⟨hmem1, hmem2, hfr, a, b, ha1, ha2, hb1, hb2, hab, hfa, hfb, rfl⟩

/-- Claim C1, counterexample to the unconditional bound |f(x*)| < eps: for
the step function fC1 on the tight bracket [3/4 - 1/100000, 3/4] (on
which f(x0) = -1 < 0 < 1 = f(x1)), the returned root estimate is the
midpoint 149999/200000 where f evaluates to -1, so |f(x*)| = 1 and no
small eps bounds it. -/
theorem claim_C1_counterexample :
    fC1 (3/4 - 1/100000) < 0 ∧ 0 < fC1 (3/4) ∧
    find_root_between fC1 (3/4 - 1/100000) (3/4) = 149999/200000 ∧
    fC1 (149999/200000) = -1 ∧
    (1 : ℚ) ≤ |fC1 (find_root_between fC1 (3/4 - 1/100000) (3/4))| := by
  have h0 : fC1 (3/4 - 1/100000) = -1 := by norm_num [fC1]
  have h1 : fC1 (3/4) = 1 := by norm_num [fC1]
  have hrun : find_root_between fC1 (3/4 - 1/100000) (3/4) = 149999/200000 := by
    refine find_root_between_eq fC1 (3/4 - 1/100000) (3/4) (-1) 1 _ 0 h0 h1
      (by norm_num) ?_
    rw [bisectGo_done fC1 0 _ _ _ _ (by norm_num [TOLERANCE, lt_abs])]
    norm_num [bisectExit]
  have hv : fC1 (149999/200000) = -1 := by norm_num [fC1]
  refine ⟨by rw [h0]; norm_num, by rw [h1]; norm_num, hrun, hv, ?_⟩
  rw [hrun, hv]
  rw [abs_of_nonpos (by norm_num)]
  norm_num

/-- Claim C1, witness: the identity function on the bracket [-1, 1] with
Lipschitz bound 1; the hypotheses hold and the conclusion follows from
the claim theorem. -/
theorem claim_C1_witness :
    (((fun t : ℚ => t) (-1) < 0 ∧ 0 < (fun t : ℚ => t) 1) ∨
      ((fun t : ℚ => t) 1 < 0 ∧ 0 < (fun t : ℚ => t) (-1))) ∧
    (min (-1 : ℚ) 1 ≤ find_root_between (fun t => t) (-1) 1 ∧
     find_root_between (fun t => t) (-1) 1 ≤ max (-1 : ℚ) 1 ∧
     |(fun t : ℚ => t) (find_root_between (fun t => t) (-1) 1)| ≤
       1 * TOLERANCE / 2 ∧
     ∃ a b, min (-1 : ℚ) 1 ≤ a ∧ a ≤ max (-1 : ℚ) 1 ∧ min (-1 : ℚ) 1 ≤ b ∧
       b ≤ max (-1 : ℚ) 1 ∧ |a - b| ≤ TOLERANCE ∧ (fun t : ℚ => t) a < 0 ∧
       0 ≤ (fun t : ℚ => t) b ∧
       find_root_between (fun t => t) (-1) 1 = (a + b) / 2) := by
  constructor
  · left; constructor <;> norm_num
  · exact claim_C1 (fun t => t) (-1) 1 1 (Or.inl ⟨by norm_num, by norm_num⟩)
      (fun a b => by simp)

/-- Claim C3, amended.  When f has one sign on the whole bracket (so in
particular f(x0) and f(x1) share it), find_root_between emits the
non-fatal WARN diagnostic, still runs the bisection loop (it is total by
construction and never raises), and returns whichever endpoint of the
final, TOLERANCE-narrow bracket has the smaller |f|.  When the endpoints
merely share a sign but a bisection midpoint hits the opposite sign, the
loop locks onto that midpoint and returns the final midpoint instead of
an endpoint (see the counterexample). -/
theorem claim_C3 (fx : ℚ → ℚ) (x0 x1 : ℚ)
    (hsame : ∀ z : ℚ, min x0 x1 ≤ z → z ≤ max x0 x1 → 0 < fx z * fx x0) :
    find_root_between_warn fx x0 x1 = true ∧
    ∃ a b, min x0 x1 ≤ a ∧ a ≤ max x0 x1 ∧ min x0 x1 ≤ b ∧ b ≤ max x0 x1 ∧
      |a - b| ≤ TOLERANCE ∧
      find_root_between fx x0 x1 = (if |fx a| < |fx b| then a else b) := by
  have h00 : 0 < fx x0 * fx x0 := hsame x0 (min_le_left _ _) (le_max_left _ _)
  have h10 : 0 < fx x1 * fx x0 := hsame x1 (min_le_right _ _) (le_max_right _ _)
  have hswap : ¬ (fx x1 < 0 ∧ 0 < fx x0) := by
    rintro ⟨hn, hp⟩; nlinarith
  have hwarn : find_root_between_warn fx x0 x1 = true := by
    unfold find_root_between_warn
    rw [Bool.and_eq_true, Bool.not_eq_true', decide_eq_false_iff_not,
      decide_eq_true_eq]
    exact ⟨hswap, by nlinarith⟩
  obtain ⟨a, b, ha1, ha2, hb1, hb2, hab, hre, _⟩ := find_root_between_spec fx x0 x1
  have ha := hsame a ha1 ha2
  have hb := hsame b hb1 hb2
  have hprod : 0 < fx a * fx b := by
    have hph := mul_pos ha hb
    have he : fx a * fx x0 * (fx b * fx x0) = fx a * fx b * (fx x0 * fx x0) := by
      ring
    rw [he] at hph
    by_contra hc
    push_neg at hc
    nlinarith
  have hexit : bisectExit a b (fx a) (fx b) =
      if |fx a| < |fx b| then a else b := by
    unfold bisectExit
    rw [if_pos hprod]
  refine ⟨hwarn, a, b, ha1, ha2, hb1, hb2, hab, ?_⟩
  rw [hre, hexit]

/-- Claim C3, counterexample to "upon termination returns whichever
endpoint has the smaller |f|": fC3 is -2 at both ends of the bracket
[1/2 - 3/400000, 1/2 + 3/400000] (same sign), but the first midpoint is
1/2 where fC3 = 1, so the loop locks onto the sign change and returns the
final midpoint 399997/800000, a non-endpoint where |f| = 2, although the
final bracket endpoint 1/2 (within TOLERANCE of the result) has |f| = 1. -/
theorem claim_C3_counterexample :
    fC3 (1/2 - 3/400000) < 0 ∧ fC3 (1/2 + 3/400000) < 0 ∧
    find_root_between fC3 (1/2 - 3/400000) (1/2 + 3/400000) = 399997/800000 ∧
    fC3 (399997/800000) = -2 ∧ fC3 (1/2) = 1 ∧
    |(399997 : ℚ)/800000 - 1/2| ≤ TOLERANCE := by
  have h0 : fC3 (1/2 - 3/400000) = -2 := by norm_num [fC3]
  have h1 : fC3 (1/2 + 3/400000) = -2 := by norm_num [fC3]
  have hrun : find_root_between fC3 (1/2 - 3/400000) (1/2 + 3/400000) =
      399997/800000 := by
    refine find_root_between_eq fC3 _ _ (-2) (-2) _ 1 h0 h1 (by norm_num) ?_
    rw [bisectGo_step fC3 0 _ _ _ _ (1/2) 1 (by norm_num [TOLERANCE, lt_abs])
      (by norm_num) (by norm_num [fC3])]
    rw [if_neg (by norm_num)]
    rw [bisectGo_done fC3 0 _ _ _ _ (by norm_num [TOLERANCE, lt_abs])]
    norm_num [bisectExit]
  refine ⟨by rw [h0]; norm_num, by rw [h1]; norm_num, hrun,
    by norm_num [fC3], by norm_num [fC3], ?_⟩
  rw [abs_of_nonpos (by norm_num)]
  norm_num [TOLERANCE]

/-- Claim C3, witness: the constant function 1 on [0, 1] has one sign on
the whole bracket; the diagnostic fires and the smaller-endpoint result
shape follows from the claim theorem. -/
theorem claim_C3_witness :
    find_root_between_warn (fun _ : ℚ => (1:ℚ)) 0 1 = true ∧
    ∃ a b, min (0:ℚ) 1 ≤ a ∧ a ≤ max (0:ℚ) 1 ∧ min (0:ℚ) 1 ≤ b ∧
      b ≤ max (0:ℚ) 1 ∧ |a - b| ≤ TOLERANCE ∧
      find_root_between (fun _ : ℚ => (1:ℚ)) 0 1 =
        (if |(fun _ : ℚ => (1:ℚ)) a| < |(fun _ : ℚ => (1:ℚ)) b| then a else b) :=
  claim_C3 (fun _ => 1) 0 1 (fun z _ _ => by norm_num)

/-- Claim C4, confirmed.  Whenever the inner directional solve for y inside
find_limit's bracket-refinement loop returns the no-root result (Python
None), the loop — and with it find_limit, from either entry path into the
loop — returns the no-root marker immediately rather than raising or
producing a number: (1) one more loop pass with a failing inner solve
returns noRoot at once; (2) and (3) find_limit forwards the loop's noRoot
from the positive-corner entry path and from the bisection entry path. -/
theorem claim_C4 (fxy dfdx dfdy : ℚ → ℚ → ℚ) (sign side : ℤ)
    (nfuel ofuel n : ℕ) (x0 x1 x y xr : ℚ) :
    (TOLERANCE < |x0 - x1| →
      innerYSolve fxy dfdy sign nfuel
        ((refineX0 fxy dfdx sign x0 x y + refineX1 fxy dfdx sign x1 x y) / 2) y =
        NRes.noRoot →
      findLimitLoop fxy dfdx dfdy sign nfuel (n+1) x0 x1 x y = NRes.noRoot) ∧
    (0 < fxy (1 - (side : ℚ)) (side : ℚ) →
      find_root_near (fun t => fxy t (side : ℚ)) (fun t => dfdx t (side : ℚ))
        (1 - (side : ℚ)) (-(1 - 2 * side)) (1/100) nfuel = NRes.found xr →
      findLimitLoop fxy dfdx dfdy (1 - 2 * side) nfuel ofuel xr
        (1 - (1 - (side : ℚ))) xr (side : ℚ) = NRes.noRoot →
      find_limit fxy dfdx dfdy side nfuel ofuel = NRes.noRoot) ∧
    (¬ 0 < fxy (1 - (side : ℚ)) (side : ℚ) →
      ¬ ((((1 - 2 * side : ℤ) : ℚ)) * dfdx (1 - (side : ℚ))
          (find_root_between (fun t => fxy (1 - (side : ℚ)) t) (1 - (side : ℚ))
            (1 - (1 - (side : ℚ)))) < 0) →
      findLimitLoop fxy dfdx dfdy (1 - 2 * side) nfuel ofuel (1 - (side : ℚ))
        (1 - (1 - (side : ℚ))) (1 - (side : ℚ))
        (find_root_between (fun t => fxy (1 - (side : ℚ)) t) (1 - (side : ℚ))
          (1 - (1 - (side : ℚ)))) = NRes.noRoot →
      find_limit fxy dfdx dfdy side nfuel ofuel = NRes.noRoot) := by
  refine ⟨?_, ?_, ?_⟩
  · intro hg hnone
    simp only [findLimitLoop]
    rw [if_pos hg, hnone]
  · intro hpos hfound hloop
    unfold find_limit
    rw [if_pos hpos, hfound]
    exact hloop
  · intro hneg hslope hloop
    unfold find_limit
    rw [if_neg hneg, if_neg hslope]
    exact hloop


set_option maxHeartbeats 1000000 in
theorem fC4_bisect_run :
    find_root_between (fun t => fC4 0 t) 0 1 = 2047/262144 := by
  refine find_root_between_eq (fun t => fC4 0 t) 0 1 (-1) 0 _ 17
    (by norm_num [fC4]) (by norm_num [fC4]) (by norm_num) ?_
  show bisectGo (fun t => fC4 0 t) 17 0 1 (-1) 0 = some (2047/262144)
  rw [bisectGo_step (fun t => fC4 0 t) 16 0 1 (-1) 0 (1/2) 0
    (by norm_num [TOLERANCE, lt_abs]) (by norm_num) (by norm_num [fC4])]
  rw [if_neg (show ¬((0:ℚ) < 0) by norm_num)]
  rw [bisectGo_step (fun t => fC4 0 t) 15 0 (1/2) (-1) 0 (1/4) 0
    (by norm_num [TOLERANCE, lt_abs]) (by norm_num) (by norm_num [fC4])]
  rw [if_neg (show ¬((0:ℚ) < 0) by norm_num)]
  rw [bisectGo_step (fun t => fC4 0 t) 14 0 (1/4) (-1) 0 (1/8) 0
    (by norm_num [TOLERANCE, lt_abs]) (by norm_num) (by norm_num [fC4])]
  rw [if_neg (show ¬((0:ℚ) < 0) by norm_num)]
  rw [bisectGo_step (fun t => fC4 0 t) 13 0 (1/8) (-1) 0 (1/16) 0
    (by norm_num [TOLERANCE, lt_abs]) (by norm_num) (by norm_num [fC4])]
  rw [if_neg (show ¬((0:ℚ) < 0) by norm_num)]
  rw [bisectGo_step (fun t => fC4 0 t) 12 0 (1/16) (-1) 0 (1/32) 0
    (by norm_num [TOLERANCE, lt_abs]) (by norm_num) (by norm_num [fC4])]
  rw [if_neg (show ¬((0:ℚ) < 0) by norm_num)]
  rw [bisectGo_step (fun t => fC4 0 t) 11 0 (1/32) (-1) 0 (1/64) 0
    (by norm_num [TOLERANCE, lt_abs]) (by norm_num) (by norm_num [fC4])]
  rw [if_neg (show ¬((0:ℚ) < 0) by norm_num)]
  rw [bisectGo_step (fun t => fC4 0 t) 10 0 (1/64) (-1) 0 (1/128) 0
    (by norm_num [TOLERANCE, lt_abs]) (by norm_num) (by norm_num [fC4])]
  rw [if_neg (show ¬((0:ℚ) < 0) by norm_num)]
  rw [bisectGo_step (fun t => fC4 0 t) 9 0 (1/128) (-1) 0 (1/256) (-1)
    (by norm_num [TOLERANCE, lt_abs]) (by norm_num) (by norm_num [fC4])]
  rw [if_pos (show ((-1):ℚ) < 0 by norm_num)]
  rw [bisectGo_step (fun t => fC4 0 t) 8 (1/256) (1/128) (-1) 0 (3/512) (-1)
    (by norm_num [TOLERANCE, lt_abs]) (by norm_num) (by norm_num [fC4])]
  rw [if_pos (show ((-1):ℚ) < 0 by norm_num)]
  rw [bisectGo_step (fun t => fC4 0 t) 7 (3/512) (1/128) (-1) 0 (7/1024) (-1)
    (by norm_num [TOLERANCE, lt_abs]) (by norm_num) (by norm_num [fC4])]
  rw [if_pos (show ((-1):ℚ) < 0 by norm_num)]
  rw [bisectGo_step (fun t => fC4 0 t) 6 (7/1024) (1/128) (-1) 0 (15/2048) (-1)
    (by norm_num [TOLERANCE, lt_abs]) (by norm_num) (by norm_num [fC4])]
  rw [if_pos (show ((-1):ℚ) < 0 by norm_num)]
  rw [bisectGo_step (fun t => fC4 0 t) 5 (15/2048) (1/128) (-1) 0 (31/4096) (-1)
    (by norm_num [TOLERANCE, lt_abs]) (by norm_num) (by norm_num [fC4])]
  rw [if_pos (show ((-1):ℚ) < 0 by norm_num)]
  rw [bisectGo_step (fun t => fC4 0 t) 4 (31/4096) (1/128) (-1) 0 (63/8192) (-1)
    (by norm_num [TOLERANCE, lt_abs]) (by norm_num) (by norm_num [fC4])]
  rw [if_pos (show ((-1):ℚ) < 0 by norm_num)]
  rw [bisectGo_step (fun t => fC4 0 t) 3 (63/8192) (1/128) (-1) 0 (127/16384) (-1)
    (by norm_num [TOLERANCE, lt_abs]) (by norm_num) (by norm_num [fC4])]
  rw [if_pos (show ((-1):ℚ) < 0 by norm_num)]
  rw [bisectGo_step (fun t => fC4 0 t) 2 (127/16384) (1/128) (-1) 0 (255/32768) (-1)
    (by norm_num [TOLERANCE, lt_abs]) (by norm_num) (by norm_num [fC4])]
  rw [if_pos (show ((-1):ℚ) < 0 by norm_num)]
  rw [bisectGo_step (fun t => fC4 0 t) 1 (255/32768) (1/128) (-1) 0 (511/65536) (-1)
    (by norm_num [TOLERANCE, lt_abs]) (by norm_num) (by norm_num [fC4])]
  rw [if_pos (show ((-1):ℚ) < 0 by norm_num)]
  rw [bisectGo_step (fun t => fC4 0 t) 0 (511/65536) (1/128) (-1) 0 (1023/131072) (-1)
    (by norm_num [TOLERANCE, lt_abs]) (by norm_num) (by norm_num [fC4])]
  rw [if_pos (show ((-1):ℚ) < 0 by norm_num)]
  rw [bisectGo_done (fun t => fC4 0 t) 0 (1023/131072) (1/128) (-1) 0 (by norm_num [TOLERANCE, lt_abs])]
  norm_num [bisectExit]

set_option maxHeartbeats 1000000 in
theorem claim_C4_witness :
    innerYSolve (fun _ _ => (-1:ℚ)) (fun _ _ => (1:ℚ)) (-1) 3
      ((refineX0 (fun _ _ => (-1:ℚ)) (fun _ _ => (0:ℚ)) (-1) 0 0 0 +
        refineX1 (fun _ _ => (-1:ℚ)) (fun _ _ => (0:ℚ)) (-1) 1 0 0) / 2) 0 =
      NRes.noRoot ∧
    findLimitLoop (fun _ _ => (-1:ℚ)) (fun _ _ => (0:ℚ)) (fun _ _ => (1:ℚ))
      (-1) 3 1 0 1 0 0 = NRes.noRoot ∧
    find_limit (fun _ _ => (1:ℚ)) (fun _ _ => (1000000:ℚ)) (fun _ _ => (1:ℚ))
      1 3 1 = NRes.noRoot ∧
    find_limit fC4 (fun _ _ => (0:ℚ)) (fun _ _ => (1:ℚ)) 1 3 1 = NRes.noRoot := by
  have hx0A : refineX0 (fun _ _ => (-1:ℚ)) (fun _ _ => (0:ℚ)) (-1) 0 0 0 = 0 := by
    unfold refineX0
    rw [if_neg (by norm_num)]
    refine find_root_between_eq _ 0 0 (-1) (-1) _ 0 (by norm_num) (by norm_num)
      (by norm_num) ?_
    rw [bisectGo_done _ 0 0 0 (-1) (-1) (by norm_num [TOLERANCE, lt_abs])]
    norm_num [bisectExit]
  have hx1A : refineX1 (fun _ _ => (-1:ℚ)) (fun _ _ => (0:ℚ)) (-1) 1 0 0 = 0 := by
    unfold refineX1
    rw [if_neg (by norm_num)]
  have hinnerA0 : innerYSolve (fun _ _ => (-1:ℚ)) (fun _ _ => (1:ℚ)) (-1) 3
      (((0:ℚ) + 0) / 2) 0 = NRes.noRoot := by
    unfold innerYSolve find_root_near
    rw [if_pos (show (fun _ _ => (-1:ℚ)) (((0:ℚ) + 0) / 2) 0 < 0 by norm_num)]
    exact findRootNearGo_stepNoRoot _ _ _ _ _ 2 0 (-(1/100)) (by norm_num)
      (by norm_num [newtonStep, newtonClamp, newtonDir, lt_abs, abs_lt])
      (Or.inl (by norm_num))
  have hinnerA : innerYSolve (fun _ _ => (-1:ℚ)) (fun _ _ => (1:ℚ)) (-1) 3
      ((refineX0 (fun _ _ => (-1:ℚ)) (fun _ _ => (0:ℚ)) (-1) 0 0 0 +
        refineX1 (fun _ _ => (-1:ℚ)) (fun _ _ => (0:ℚ)) (-1) 1 0 0) / 2) 0 =
      NRes.noRoot := by
    rw [hx0A, hx1A]; exact hinnerA0
  have hA : findLimitLoop (fun _ _ => (-1:ℚ)) (fun _ _ => (0:ℚ))
      (fun _ _ => (1:ℚ)) (-1) 3 1 0 1 0 0 = NRes.noRoot :=
    (claim_C4 (fun _ _ => (-1:ℚ)) (fun _ _ => (0:ℚ)) (fun _ _ => (1:ℚ))
      (-1) 0 3 1 0 0 1 0 0 0).1 (by norm_num [TOLERANCE, lt_abs]) hinnerA
  have hposB : (0:ℚ) < (fun _ _ => (1:ℚ)) (1 - ((1:ℤ):ℚ)) ((1:ℤ):ℚ) := by
    norm_num
  have hfoundB : find_root_near (fun t => (fun _ _ => (1:ℚ)) t ((1:ℤ):ℚ))
      (fun t => (fun _ _ => (1000000:ℚ)) t ((1:ℤ):ℚ)) (1 - ((1:ℤ):ℚ))
      (-(1 - 2 * 1)) (1/100) 3 = NRes.found (1/1000000) := by
    unfold find_root_near
    exact findRootNearGo_stepFound _ _ _ _ _ 2 _ _ (by norm_num)
      (by norm_num [newtonStep, newtonClamp, newtonDir, lt_abs, abs_lt])
      (by norm_num) (by norm_num [TOLERANCE, lt_abs])
  have hx0B : refineX0 (fun _ _ => (1:ℚ)) (fun _ _ => (1000000:ℚ)) (1 - 2 * 1)
      (1/1000000) (1/1000000) ((1:ℤ):ℚ) = 1/1000000 := by
    unfold refineX0
    rw [if_neg (by norm_num)]
    refine find_root_between_eq _ _ _ 1 1 _ 0 (by norm_num) (by norm_num)
      (by norm_num) ?_
    rw [bisectGo_done _ 0 _ _ _ _ (by norm_num [TOLERANCE, lt_abs])]
    norm_num [bisectExit]
  have hx1B : refineX1 (fun _ _ => (1:ℚ)) (fun _ _ => (1000000:ℚ)) (1 - 2 * 1)
      (1 - (1 - ((1:ℤ):ℚ))) (1/1000000) ((1:ℤ):ℚ) = 1/1000000 := by
    unfold refineX1
    rw [if_neg (by norm_num)]
  have hinnerB0 : innerYSolve (fun _ _ => (1:ℚ)) (fun _ _ => (1:ℚ)) (1 - 2 * 1)
      3 (((1:ℚ)/1000000 + 1/1000000) / 2) ((1:ℤ):ℚ) = NRes.noRoot := by
    unfold innerYSolve find_root_near
    rw [if_neg (show ¬ ((fun _ _ => (1:ℚ)) (((1:ℚ)/1000000 + 1/1000000) / 2)
      ((1:ℤ):ℚ) < 0) by norm_num)]
    exact findRootNearGo_stepNoRoot _ _ _ _ _ 2 _ (101/100) (by norm_num)
      (by norm_num [newtonStep, newtonClamp, newtonDir, lt_abs, abs_lt])
      (Or.inr (by norm_num))
  have hinnerB : innerYSolve (fun _ _ => (1:ℚ)) (fun _ _ => (1:ℚ)) (1 - 2 * 1)
      3 ((refineX0 (fun _ _ => (1:ℚ)) (fun _ _ => (1000000:ℚ)) (1 - 2 * 1)
          (1/1000000) (1/1000000) ((1:ℤ):ℚ) +
        refineX1 (fun _ _ => (1:ℚ)) (fun _ _ => (1000000:ℚ)) (1 - 2 * 1)
          (1 - (1 - ((1:ℤ):ℚ))) (1/1000000) ((1:ℤ):ℚ)) / 2) ((1:ℤ):ℚ) =
      NRes.noRoot := by
    rw [hx0B, hx1B]; exact hinnerB0
  have hloopB : findLimitLoop (fun _ _ => (1:ℚ)) (fun _ _ => (1000000:ℚ))
      (fun _ _ => (1:ℚ)) (1 - 2 * 1) 3 1 (1/1000000) (1 - (1 - ((1:ℤ):ℚ)))
      (1/1000000) ((1:ℤ):ℚ) = NRes.noRoot :=
    (claim_C4 (fun _ _ => (1:ℚ)) (fun _ _ => (1000000:ℚ)) (fun _ _ => (1:ℚ))
      (1 - 2 * 1) 0 3 1 0 (1/1000000) (1 - (1 - ((1:ℤ):ℚ))) (1/1000000)
      ((1:ℤ):ℚ) 0).1 (by norm_num [TOLERANCE, lt_abs]) hinnerB
  have hB : find_limit (fun _ _ => (1:ℚ)) (fun _ _ => (1000000:ℚ))
      (fun _ _ => (1:ℚ)) 1 3 1 = NRes.noRoot :=
    (claim_C4 (fun _ _ => (1:ℚ)) (fun _ _ => (1000000:ℚ)) (fun _ _ => (1:ℚ))
      0 1 3 1 0 0 0 0 0 (1/1000000)).2.1 hposB hfoundB hloopB
  have hnegC : ¬ (0:ℚ) < fC4 (1 - ((1:ℤ):ℚ)) ((1:ℤ):ℚ) := by
    norm_num [fC4]
  have hybC : find_root_between (fun t => fC4 (1 - ((1:ℤ):ℚ)) t)
      (1 - ((1:ℤ):ℚ)) (1 - (1 - ((1:ℤ):ℚ))) = 2047/262144 := by
    have hfun : (fun t => fC4 (1 - ((1:ℤ):ℚ)) t) = (fun t => fC4 0 t) := rfl
    rw [hfun, show ((1:ℚ) - (1 - ((1:ℤ):ℚ))) = 1 by norm_num,
      show ((1:ℚ) - ((1:ℤ):ℚ)) = 0 by norm_num]
    exact fC4_bisect_run
  have hslopeC : ¬ ((((1 - 2 * 1 : ℤ)):ℚ) * (fun _ _ => (0:ℚ)) (1 - ((1:ℤ):ℚ))
      (find_root_between (fun t => fC4 (1 - ((1:ℤ):ℚ)) t) (1 - ((1:ℤ):ℚ))
        (1 - (1 - ((1:ℤ):ℚ)))) < 0) := by
    norm_num
  have hx0C : refineX0 fC4 (fun _ _ => (0:ℚ)) (1 - 2 * 1) (1 - ((1:ℤ):ℚ))
      (1 - ((1:ℤ):ℚ)) (2047/262144) = 1 - ((1:ℤ):ℚ) := by
    unfold refineX0
    rw [if_neg (by norm_num)]
    refine find_root_between_eq _ _ _ (-1) (-1) _ 0 (by norm_num [fC4])
      (by norm_num [fC4]) (by norm_num) ?_
    rw [bisectGo_done _ 0 _ _ _ _ (by norm_num [TOLERANCE, lt_abs])]
    norm_num [bisectExit]
  have hx1C : refineX1 fC4 (fun _ _ => (0:ℚ)) (1 - 2 * 1) (1 - (1 - ((1:ℤ):ℚ)))
      (1 - ((1:ℤ):ℚ)) (2047/262144) = 1 - ((1:ℤ):ℚ) := by
    unfold refineX1
    rw [if_neg (by norm_num)]
  have hinnerC0 : innerYSolve fC4 (fun _ _ => (1:ℚ)) (1 - 2 * 1) 3
      (((1 - ((1:ℤ):ℚ)) + (1 - ((1:ℤ):ℚ))) / 2) (2047/262144) = NRes.noRoot := by
    unfold innerYSolve find_root_near
    rw [if_pos (show fC4 (((1 - ((1:ℤ):ℚ)) + (1 - ((1:ℤ):ℚ))) / 2)
      (2047/262144) < 0 by norm_num [fC4])]
    exact findRootNearGo_stepNoRoot _ _ _ _ _ 2 _ (2047/262144 - 1/100)
      (by norm_num)
      (by norm_num [fC4, newtonStep, newtonClamp, newtonDir, lt_abs, abs_lt])
      (Or.inl (by norm_num))
  have hinnerC : innerYSolve fC4 (fun _ _ => (1:ℚ)) (1 - 2 * 1) 3
      ((refineX0 fC4 (fun _ _ => (0:ℚ)) (1 - 2 * 1) (1 - ((1:ℤ):ℚ))
          (1 - ((1:ℤ):ℚ)) (2047/262144) +
        refineX1 fC4 (fun _ _ => (0:ℚ)) (1 - 2 * 1) (1 - (1 - ((1:ℤ):ℚ)))
          (1 - ((1:ℤ):ℚ)) (2047/262144)) / 2) (2047/262144) = NRes.noRoot := by
    rw [hx0C, hx1C]; exact hinnerC0
  have hloopC : findLimitLoop fC4 (fun _ _ => (0:ℚ)) (fun _ _ => (1:ℚ))
      (1 - 2 * 1) 3 1 (1 - ((1:ℤ):ℚ)) (1 - (1 - ((1:ℤ):ℚ))) (1 - ((1:ℤ):ℚ))
      (find_root_between (fun t => fC4 (1 - ((1:ℤ):ℚ)) t) (1 - ((1:ℤ):ℚ))
        (1 - (1 - ((1:ℤ):ℚ)))) = NRes.noRoot := by
    rw [hybC]
    exact (claim_C4 fC4 (fun _ _ => (0:ℚ)) (fun _ _ => (1:ℚ)) (1 - 2 * 1) 0 3 1
      0 (1 - ((1:ℤ):ℚ)) (1 - (1 - ((1:ℤ):ℚ))) (1 - ((1:ℤ):ℚ)) (2047/262144)
      0).1 (by norm_num [TOLERANCE, lt_abs]) hinnerC
  have hC : find_limit fC4 (fun _ _ => (0:ℚ)) (fun _ _ => (1:ℚ)) 1 3 1 =
      NRes.noRoot :=
    (claim_C4 fC4 (fun _ _ => (0:ℚ)) (fun _ _ => (1:ℚ)) 0 1 3 1 0 0 0 0 0
      0).2.2 hnegC hslopeC hloopC
  exact ⟨hinnerA, hA, hB, hC⟩


theorem claim_C10 (fxy dfdx dfdy : ℚ → ℚ → ℚ) (side : ℤ) (nfuel ofuel : ℕ)
    (v : ℚ) (fx dfx : ℚ → ℚ) (x0 : ℚ) (direction : ℤ) (maxDx : ℚ) (fuel : ℕ)
    (w : ℚ) :
    ((side = 0 ∨ side = 1) →
      find_limit fxy dfdx dfdy side nfuel ofuel = NRes.found v →
      0 ≤ v ∧ v ≤ 1) ∧
    (0 ≤ x0 → x0 ≤ 1 →
      find_root_near fx dfx x0 direction maxDx fuel = NRes.found w →
      0 ≤ w ∧ w ≤ 1) := by
  constructor
  · intro hside h
    have hs0 : 0 ≤ (side:ℚ) ∧ (side:ℚ) ≤ 1 := by
      rcases hside with rfl | rfl <;> norm_num
    have hmem : ∀ g : ℚ → ℚ,
        0 ≤ find_root_between g (1 - (side:ℚ)) (1 - (1 - (side:ℚ))) ∧
        find_root_between g (1 - (side:ℚ)) (1 - (1 - (side:ℚ))) ≤ 1 := by
      intro g
      have hm := find_root_between_mem g (1 - (side:ℚ)) (1 - (1 - (side:ℚ)))
      rcases hside with rfl | rfl
      · constructor
        · refine le_trans ?_ hm.1
          norm_num [min_def]
        · refine le_trans hm.2 ?_
          norm_num [max_def]
      · constructor
        · refine le_trans ?_ hm.1
          norm_num [min_def]
        · refine le_trans hm.2 ?_
          norm_num [max_def]
    unfold find_limit at h
    split at h
    · split at h
      · -- noRoot arm: h : NRes.found (side:ℚ) = NRes.found v
        injection h with hv
        rw [← hv]; exact hs0
      · -- found arm: h : findLimitLoop ... = found v
        exact findLimitLoop_found _ _ _ _ _ _ _ _ _ _ _ hs0.1 hs0.2 h
      · -- catch-all arm: the newton result cannot be found here
        rename_i r hnoRoot hfound
        exact absurd h (hfound v)
    · split at h
      · injection h with hv
        rw [← hv]; exact hmem _
      · exact findLimitLoop_found _ _ _ _ _ _ _ _ _ _ _ (hmem _).1 (hmem _).2 h
  · intro _ _ h
    exact find_root_near_found fx dfx x0 direction maxDx fuel w h

set_option maxHeartbeats 1000000 in
theorem claim_C10_witness :
    ((0:ℤ) = 0 ∨ (0:ℤ) = 1) ∧
    find_limit fC10 (fun _ _ => (1:ℚ)) (fun _ _ => (1:ℚ)) 0 2 1 =
      NRes.found (((0:ℤ)):ℚ) ∧
    (0 ≤ (((0:ℤ)):ℚ) ∧ (((0:ℤ)):ℚ) ≤ 1) ∧
    (0 ≤ (1:ℚ)/2 ∧ (1:ℚ)/2 ≤ 1) ∧
    find_root_near (fun _ => (1:ℚ)/1000000) (fun _ => (1:ℚ)) (1/2) 1 (1/100) 1 =
      NRes.found (500001/1000000) ∧
    (0 ≤ (500001:ℚ)/1000000 ∧ (500001:ℚ)/1000000 ≤ 1) := by
  have hrun1 : find_limit fC10 (fun _ _ => (1:ℚ)) (fun _ _ => (1:ℚ)) 0 2 1 =
      NRes.found (((0:ℤ)):ℚ) := by
    apply find_limit_pos_noRoot
    · norm_num [fC10]
    · unfold find_root_near
      exact (findRootNearGo_stepCont _ _ _ _ _ 1 _ (199/200) (by norm_num)
        (by norm_num [fC10, newtonStep, newtonClamp, newtonDir, lt_abs, abs_lt])
        (by norm_num) (by norm_num [TOLERANCE, lt_abs])).trans
        (findRootNearGo_stepNoRoot _ _ _ _ _ 0 _ (201/200) (by norm_num)
          (by norm_num [fC10, newtonStep, newtonClamp, newtonDir, lt_abs, abs_lt])
          (Or.inr (by norm_num)))
  have hrun2 : find_root_near (fun _ => (1:ℚ)/1000000) (fun _ => (1:ℚ)) (1/2) 1
      (1/100) 1 = NRes.found (500001/1000000) := by
    unfold find_root_near
    exact findRootNearGo_stepFound _ _ _ _ _ 0 _ _ (by norm_num)
      (by norm_num [newtonStep, newtonClamp, newtonDir, lt_abs, abs_lt])
      (by norm_num) (by norm_num [TOLERANCE, lt_abs])
  refine ⟨Or.inl rfl, hrun1, ?_, ⟨by norm_num, by norm_num⟩, hrun2, ?_⟩
  · exact (claim_C10 fC10 (fun _ _ => (1:ℚ)) (fun _ _ => (1:ℚ)) 0 2 1
      (((0:ℤ)):ℚ) (fun _ => (1:ℚ)/1000000) (fun _ => (1:ℚ)) (1/2) 1 (1/100) 1
      (500001/1000000)).1 (Or.inl rfl) hrun1
  · exact (claim_C10 fC10 (fun _ _ => (1:ℚ)) (fun _ _ => (1:ℚ)) 0 2 1
      (((0:ℤ)):ℚ) (fun _ => (1:ℚ)/1000000) (fun _ => (1:ℚ)) (1/2) 1 (1/100) 1
      (500001/1000000)).2 (by norm_num) (by norm_num) hrun2


/-- Claim C7, confirmed.  For p, q at least 1, x in [0,1] and y in [0,1),
the radicand of S is strictly positive (so math.sqrt is defined), S itself
is strictly positive, and therefore the divisions by s in _ds_dx and
_ds_dy are divisions by a nonzero number: multiplying them back by s
recovers the closed-form numerators exactly.  Hence every Inequality
Model function evaluates without raising on this domain. -/
theorem claim_C7 (p q x y : ℝ) (hp : 1 ≤ p) (hq : 1 ≤ q) (hx0 : 0 ≤ x)
    (hx1 : x ≤ 1) (hy0 : 0 ≤ y) (hy1 : y < 1) :
    0 < q ^ 2 * (1 - x*y) ^ 4 + p ^ 2 * (1 - y*y) ^ 3 ∧
    0 < Solver.s p q x y ∧
    Solver.ds_dx p q x y * Solver.s p q x y =
      -2 * (q ^ 2 * y * (1 - x*y) ^ 3) ∧
    Solver.ds_dy p q x y * Solver.s p q x y =
      -(2 * q ^ 2 * x * (1 - x*y) ^ 3 + 3 * p ^ 2 * y * (1 - y*y) ^ 2) := by
  have hq0 : (0:ℝ) < q := lt_of_lt_of_le one_pos hq
  have h1 : 0 < 1 - x*y := by nlinarith
  have h2 : 0 < 1 - y*y := by nlinarith
  have hrad : 0 < q ^ 2 * (1 - x*y) ^ 4 + p ^ 2 * (1 - y*y) ^ 3 :=
    add_pos_of_pos_of_nonneg (mul_pos (pow_pos hq0 2) (pow_pos h1 4))
      (mul_nonneg (sq_nonneg p) (pow_nonneg h2.le 3))
  have hs : 0 < Solver.s p q x y := by
    unfold Solver.s
    exact Real.sqrt_pos.mpr hrad
  have hsne : Solver.s p q x y ≠ 0 := ne_of_gt hs
  refine ⟨hrad, hs, ?_, ?_⟩
  · unfold Solver.ds_dx
    exact div_mul_cancel₀ _ hsne
  · unfold Solver.ds_dy
    exact div_mul_cancel₀ _ hsne

/-- Claim C7, witness at p = q = 1, x = y = 0. -/
theorem claim_C7_witness :
    ((1:ℝ) ≤ 1 ∧ (0:ℝ) ≤ 0 ∧ (0:ℝ) ≤ 1 ∧ (0:ℝ) < 1) ∧
    (0 < (1:ℝ) ^ 2 * (1 - 0*0) ^ 4 + (1:ℝ) ^ 2 * (1 - 0*0) ^ 3 ∧
     0 < Solver.s 1 1 0 0 ∧
     Solver.ds_dx 1 1 0 0 * Solver.s 1 1 0 0 =
       -2 * ((1:ℝ) ^ 2 * 0 * (1 - 0*0) ^ 3) ∧
     Solver.ds_dy 1 1 0 0 * Solver.s 1 1 0 0 =
       -(2 * (1:ℝ) ^ 2 * 0 * (1 - 0*0) ^ 3 + 3 * (1:ℝ) ^ 2 * 0 * (1 - 0*0) ^ 2)) :=
  ⟨⟨le_refl 1, le_refl 0, by norm_num, by norm_num⟩,
    claim_C7 1 1 0 0 (le_refl 1) (le_refl 1) (le_refl 0) (by norm_num)
      (le_refl 0) (by norm_num)⟩

/-- Claim C8, confirmed.  On [0,1) x [0,1) with p, q at least 1, S squared
equals q^2 (1-xy)^4 + p^2 (1-y^2)^3 exactly, and S is at least
|p/q| * (1-y^2)^1.5 (the power 1.5 modelled as the square root of the
cube). -/
theorem claim_C8 (p q x y : ℝ) (hp : 1 ≤ p) (hq : 1 ≤ q) (hx0 : 0 ≤ x)
    (hx1 : x < 1) (hy0 : 0 ≤ y) (hy1 : y < 1) :
    Solver.s p q x y ^ 2 = q ^ 2 * (1 - x*y) ^ 4 + p ^ 2 * (1 - y*y) ^ 3 ∧
    |p / q| * Real.sqrt ((1 - y*y) ^ 3) ≤ Solver.s p q x y := by
  have hq0 : (0:ℝ) < q := lt_of_lt_of_le one_pos hq
  have h1 : 0 < 1 - x*y := by nlinarith
  have h2 : 0 < 1 - y*y := by nlinarith
  have hrad : (0:ℝ) ≤ q ^ 2 * (1 - x*y) ^ 4 + p ^ 2 * (1 - y*y) ^ 3 :=
    le_of_lt (add_pos_of_pos_of_nonneg (mul_pos (pow_pos hq0 2) (pow_pos h1 4))
      (mul_nonneg (sq_nonneg p) (pow_nonneg h2.le 3)))
  constructor
  · unfold Solver.s
    exact Real.sq_sqrt hrad
  · have e1 : Real.sqrt (p ^ 2 * (1 - y*y) ^ 3) =
        |p| * Real.sqrt ((1 - y*y) ^ 3) := by
      rw [Real.sqrt_mul (sq_nonneg p), Real.sqrt_sq_eq_abs]
    have hmono : Real.sqrt (p ^ 2 * (1 - y*y) ^ 3) ≤
        Real.sqrt (q ^ 2 * (1 - x*y) ^ 4 + p ^ 2 * (1 - y*y) ^ 3) :=
      Real.sqrt_le_sqrt (le_add_of_nonneg_left
        (le_of_lt (mul_pos (pow_pos hq0 2) (pow_pos h1 4))))
    have habs : |p / q| ≤ |p| := by
      rw [abs_div]
      refine div_le_self (abs_nonneg p) ?_
      rw [abs_of_pos hq0]
      exact hq
    calc |p / q| * Real.sqrt ((1 - y*y) ^ 3)
        ≤ |p| * Real.sqrt ((1 - y*y) ^ 3) :=
          mul_le_mul_of_nonneg_right habs (Real.sqrt_nonneg _)
      _ = Real.sqrt (p ^ 2 * (1 - y*y) ^ 3) := e1.symm
      _ ≤ Real.sqrt (q ^ 2 * (1 - x*y) ^ 4 + p ^ 2 * (1 - y*y) ^ 3) := hmono
      _ = Solver.s p q x y := rfl

/-- Claim C8, witness at p = q = 1, x = y = 0. -/
theorem claim_C8_witness :
    ((1:ℝ) ≤ 1 ∧ (0:ℝ) ≤ 0 ∧ (0:ℝ) < 1) ∧
    (Solver.s 1 1 0 0 ^ 2 = (1:ℝ) ^ 2 * (1 - 0*0) ^ 4 + (1:ℝ) ^ 2 * (1 - 0*0) ^ 3 ∧
     |(1:ℝ) / 1| * Real.sqrt ((1 - 0*0) ^ 3) ≤ Solver.s 1 1 0 0) :=
  ⟨⟨le_refl 1, le_refl 0, by norm_num⟩,
    claim_C8 1 1 0 0 (le_refl 1) (le_refl 1) (le_refl 0) (by norm_num)
      (le_refl 0) (by norm_num)⟩

/-- Claim C5, amended.  For a Scanner with positive fov and positive best
altitude on a Body with positive radius: the fov is amplified (strictly
increased, by the factor sqrt(r_kerbin/r) > 1) exactly when the body is
smaller than kerbin and left unchanged otherwise; the returned fov lies
in (0, FOV_MAX]; and the solver constant k = 180 fov_alt / fov is
positive.  The claim as stated omits 0 < altitude_best, without which
k > 0 fails (see the counterexample). -/
theorem claim_C5 (scanner : Scanner) (body : Body) (hf : 0 < scanner.fov)
    (hr : 0 < body.radius) (ha : 0 < scanner.altitude_best) :
    (body.radius < kerbin.radius → scanner.fov < scaled_fov scanner body) ∧
    (kerbin.radius ≤ body.radius → scaled_fov scanner body = scanner.fov) ∧
    0 < (get_scaled_fov_and_altitude scanner body).1 ∧
    (get_scaled_fov_and_altitude scanner body).1 ≤ FOV_MAX ∧
    0 < solverK scanner body := by
  have hk : (0:ℝ) < kerbin.radius := by norm_num [kerbin]
  have hFOV : (0:ℝ) < FOV_MAX := by norm_num [FOV_MAX]
  have hsf : 0 < scaled_fov scanner body := by
    unfold scaled_fov
    split_ifs with h
    · exact mul_pos hf (Real.sqrt_pos.mpr (div_pos hk hr))
    · exact hf
  have hmain : 0 < (get_scaled_fov_and_altitude scanner body).1 ∧
      (get_scaled_fov_and_altitude scanner body).1 ≤ FOV_MAX ∧
      0 < solverK scanner body := by
    unfold solverK get_scaled_fov_and_altitude
    split_ifs with h
    · refine ⟨hFOV, le_refl _, ?_⟩
      show 0 < 180 * (scanner.altitude_best * (FOV_MAX / scaled_fov scanner body)) / FOV_MAX
      have h1 : 0 < scanner.altitude_best * (FOV_MAX / scaled_fov scanner body) :=
        mul_pos ha (div_pos hFOV hsf)
      have h2 : 0 < 180 * (scanner.altitude_best * (FOV_MAX / scaled_fov scanner body)) := by
        nlinarith
      exact div_pos h2 hFOV
    · refine ⟨hsf, not_lt.mp h, ?_⟩
      show 0 < 180 * scanner.altitude_best / scaled_fov scanner body
      have h2 : 0 < 180 * scanner.altitude_best := by nlinarith
      exact div_pos h2 hsf
  refine ⟨?_, ?_, hmain⟩
  · intro h
    unfold scaled_fov
    rw [if_pos h]
    have h1 : 1 < kerbin.radius / body.radius := (one_lt_div hr).mpr h
    have h2 : 1 < Real.sqrt (kerbin.radius / body.radius) := by
      have := Real.sqrt_lt_sqrt (by norm_num) h1
      rwa [Real.sqrt_one] at this
    nlinarith
  · intro h
    unfold scaled_fov
    rw [if_neg (not_lt.mpr h)]

/-- Claim C5, counterexample to the unconditional positivity of k: a
scanner with fov 10 > 0 and altitude_best 0 on kerbin (radius > 0) gives
k = 180 * 0 / 10 = 0, which is not positive; the claim needs the extra
hypothesis 0 < altitude_best. -/
theorem claim_C5_counterexample :
    (0:ℝ) < (Scanner.mk 10 0 0 0).fov ∧ (0:ℝ) < kerbin.radius ∧
    ¬ (0:ℝ) < solverK (Scanner.mk 10 0 0 0) kerbin := by
  refine ⟨by norm_num, by norm_num [kerbin], ?_⟩
  have hval : solverK (Scanner.mk 10 0 0 0) kerbin = 0 := by
    unfold solverK get_scaled_fov_and_altitude scaled_fov
    norm_num [kerbin, FOV_MAX]
  rw [hval]
  norm_num

/-- Claim C5, witness: a 10-degree scanner with best altitude 500000 on
kerbin itself; no amplification and no cap apply and k = 9000000 > 0. -/
theorem claim_C5_witness :
    ((0:ℝ) < (Scanner.mk 10 100000 500000 800000).fov ∧
     (0:ℝ) < kerbin.radius ∧
     (0:ℝ) < (Scanner.mk 10 100000 500000 800000).altitude_best) ∧
    ((kerbin.radius < kerbin.radius →
      (Scanner.mk 10 100000 500000 800000).fov <
        scaled_fov (Scanner.mk 10 100000 500000 800000) kerbin) ∧
     (kerbin.radius ≤ kerbin.radius →
      scaled_fov (Scanner.mk 10 100000 500000 800000) kerbin =
        (Scanner.mk 10 100000 500000 800000).fov) ∧
     0 < (get_scaled_fov_and_altitude (Scanner.mk 10 100000 500000 800000) kerbin).1 ∧
     (get_scaled_fov_and_altitude (Scanner.mk 10 100000 500000 800000) kerbin).1 ≤
       FOV_MAX ∧
     0 < solverK (Scanner.mk 10 100000 500000 800000) kerbin) :=
  ⟨⟨by norm_num, by norm_num [kerbin], by norm_num⟩,
    claim_C5 (Scanner.mk 10 100000 500000 800000) kerbin (by norm_num)
      (by norm_num [kerbin]) (by norm_num)⟩

/-- Claim C6, amended.  The source performs no construction-time
validation at all: Scanner is a plain dataclass, Body.__post_init__ only
computes geo_radius, and Solver.__init__ only derives fov, fov_alt and k.
Malformed parameters are accepted silently and flow through the scaling
unchanged: for any scanner and body in the no-scaling, no-cap regime the
fov and best altitude pass through as given, with no fail-fast check. -/
theorem claim_C6 (s : Scanner) (b : Body) (hr : kerbin.radius ≤ b.radius)
    (hf : s.fov ≤ FOV_MAX) :
    get_scaled_fov_and_altitude s b = (s.fov, s.altitude_best) := by
  unfold get_scaled_fov_and_altitude scaled_fov
  rw [if_neg (not_lt.mpr hr)]
  rw [if_neg (not_lt.mpr hf)]

/-- Claim C6, counterexample to fail-fast construction: a Scanner with
negative fov and inverted altitude ordering is accepted, flows through
the fov scaling untouched, and produces the negative constant k = -900 —
no exception path exists. -/
theorem claim_C6_counterexample :
    (Scanner.mk (-1) 10 5 1).fov < 0 ∧
    ¬ (Scanner.mk (-1) 10 5 1).altitude_min ≤
        (Scanner.mk (-1) 10 5 1).altitude_best ∧
    get_scaled_fov_and_altitude (Scanner.mk (-1) 10 5 1) kerbin = (-1, 5) ∧
    solverK (Scanner.mk (-1) 10 5 1) kerbin = -900 := by
  refine ⟨by norm_num, by norm_num, ?_, ?_⟩
  · unfold get_scaled_fov_and_altitude scaled_fov
    norm_num [kerbin, FOV_MAX]
  · unfold solverK get_scaled_fov_and_altitude scaled_fov
    norm_num [kerbin, FOV_MAX]

/-- Claim C6, witness: a scanner whose altitude ordering is violated
(3, 2, 1) is still accepted and passed through unchanged. -/
theorem claim_C6_witness :
    (kerbin.radius ≤ kerbin.radius ∧ (Scanner.mk 5 3 2 1).fov ≤ FOV_MAX) ∧
    get_scaled_fov_and_altitude (Scanner.mk 5 3 2 1) kerbin =
      ((Scanner.mk 5 3 2 1).fov, (Scanner.mk 5 3 2 1).altitude_best) :=
  ⟨⟨le_refl _, by norm_num [FOV_MAX]⟩,
    claim_C6 (Scanner.mk 5 3 2 1) kerbin (le_refl _) (by norm_num [FOV_MAX])⟩

end ScanSolver
